import Mathlib

/-!
Verification of the Undertone audio-routing daemon (shallow embedding).

This file embeds, as executable Lean definitions, the parts of the
Undertone source that the verified claims are about:

* `undertone-core/src/routing.rs` — route rules and `find_channel_for_app`;
* `undertone-core/src/channel.rs`, `mixer.rs`, `command.rs` — channel
  state, mix types and the command sum type;
* `undertone-pipewire/src/graph.rs` — the graph cache (`GraphManager`);
* `undertone-pipewire/src/reconcile.rs` — `Reconciler::reconcile`;
* `undertone-pipewire/src/runtime.rs` — `handle_global`,
  `handle_global_remove` and the cold-start factory helpers;
* `undertone-daemon/src/server.rs` — `handle_request`;
* `undertone-daemon/src/main.rs` — the event-loop command application
  and the cold-start sequence.

Rust `HashMap`s are modelled as association lists in insertion order
(iteration order is a deterministic stand-in for Rust's arbitrary map
order); `f32` volumes are modelled as rationals (only comparisons and
selections are performed on them, never rounding arithmetic); the
external regex engine is modelled as an abstract `RegexEngine`
parameter (a compile test plus a match function), with a concrete
instance used for witnesses.
-/

namespace Undertone

/-! ## String helpers

Rust's `str::starts_with` and `str::contains` on the underlying
character lists. -/

/-- Does the character list `l` contain `pat` as a contiguous sublist? -/
def listContainsSub : List Char → List Char → Bool
  | _, [] => true
  | [], _ :: _ => false
  | c :: cs, pat => pat.isPrefixOf (c :: cs) || listContainsSub cs pat

/-- Rust `str::contains` (substring containment). -/
def strContains (s sub : String) : Bool :=
  listContainsSub s.data sub.data

/-- Rust `str::starts_with`. -/
def strStarts (s p : String) : Bool :=
  p.data.isPrefixOf s.data

/-! ## Routing (`undertone-core/src/routing.rs`) -/

/-- `PatternType` from `routing.rs`. -/
inductive PatternType where
  | exact
  | prefixMatch
  | regexMatch
deriving DecidableEq

/-- `RouteRule` from `routing.rs`.  The `compiled_regex : OnceLock` cache
only affects when the compile warning is emitted, not match results; the
memoisation state is modelled separately (`RegexCacheState`). -/
structure RouteRule where
  pattern : String
  patternType : PatternType
  channel : String
  priority : Int
deriving DecidableEq

/-- The external regex engine (`regex` crate), abstracted: whether a
pattern compiles, and the match predicate of a compiled pattern. -/
structure RegexEngine where
  compiles : String → Bool
  rmatch : String → String → Bool

/-- Balanced-parenthesis check: the aspect of regex-pattern validity the
claims exercise (the pattern `(unterminated` fails to compile). -/
def parenBalanced : List Char → Int → Bool
  | [], depth => depth == 0
  | c :: cs, depth =>
    if c = '(' then parenBalanced cs (depth + 1)
    else if c = ')' then decide (0 < depth) && parenBalanced cs (depth - 1)
    else parenBalanced cs depth

/-- A concrete regex-engine model used for witnesses: a pattern compiles
iff its parentheses are balanced (so `(unterminated` is rejected, as by
the real engine), and a compiled pattern matches an input iff it occurs
as a substring.  The theorems quantify over arbitrary engines. -/
def modelEngine : RegexEngine where
  compiles := fun p => parenBalanced p.data 0
  rmatch := fun p s => strContains s p

/-- `RouteRule::matches`, result only (the `OnceLock` memoisation does
not change the boolean result, only whether the warning fires). -/
def ruleMatches (eng : RegexEngine) (r : RouteRule) (appName : String) : Bool :=
  match r.patternType with
  | .exact => appName == r.pattern
  | .prefixMatch => strStarts appName r.pattern
  | .regexMatch => eng.compiles r.pattern && eng.rmatch r.pattern appName

/-- The memoisation state of one rule's `compiled_regex : OnceLock`:
`none` = not yet initialised, `some ok` = initialised, with `ok`
recording whether compilation succeeded. -/
abbrev RegexCacheState := Option Bool

/-- One call of `RouteRule::matches` with the `OnceLock` state explicit:
returns the match result, the updated cache state, and the number of
"Invalid regex pattern" warnings emitted by this call. -/
def matchesOnce (eng : RegexEngine) (r : RouteRule) (cache : RegexCacheState)
    (appName : String) : Bool × RegexCacheState × Nat :=
  match r.patternType with
  | .exact => (appName == r.pattern, cache, 0)
  | .prefixMatch => (strStarts appName r.pattern, cache, 0)
  | .regexMatch =>
    match cache with
    | some ok => (ok && eng.rmatch r.pattern appName, some ok, 0)
    | none =>
      let ok := eng.compiles r.pattern
      (ok && eng.rmatch r.pattern appName, some ok, if ok then 0 else 1)

/-- A sequence of `matches` calls on one rule, threading the `OnceLock`
state; returns the results, the final state and the total warning count. -/
def runMatches (eng : RegexEngine) (r : RouteRule) :
    RegexCacheState → List String → List Bool × RegexCacheState × Nat
  | cache, [] => ([], cache, 0)
  | cache, s :: rest =>
    let step := matchesOnce eng r cache s
    let tail := runMatches eng r step.2.1 rest
    (step.1 :: tail.1, tail.2.1, step.2.2 + tail.2.2)

/-- The comparator of `find_channel_for_app`:
`sorted_rules.sort_by(|a, b| b.priority.cmp(&a.priority))` keeps `a`
before `b` whenever `b.priority ≤ a.priority` (stable sort). -/
def prioDesc (a b : RouteRule) : Bool :=
  decide (b.priority ≤ a.priority)

/-- `find_channel_for_app` from `routing.rs`: stable-sort the rules by
priority descending, scan against the app name, then against the binary
name, defaulting to "system".  Rust's `slice::sort_by` is a stable merge
sort, modelled by `List.mergeSort`. -/
def findChannelForApp (eng : RegexEngine) (appName : String)
    (binaryName : Option String) (rules : List RouteRule) : String :=
  let sorted := rules.mergeSort prioDesc
  match sorted.find? (fun r => ruleMatches eng r appName) with
  | some r => r.channel
  | none =>
    match binaryName with
    | some bin =>
      match sorted.find? (fun r => ruleMatches eng r bin) with
      | some r => r.channel
      | none => "system"
    | none => "system"

/-- Spec-side rule order: "rules ordered by priority descending with
ties broken by insertion order" — sort the index-annotated rules by the
(total, antisymmetric) lexicographic order on (priority descending,
index ascending) and drop the indices. -/
def specOrdered (rules : List RouteRule) : List RouteRule :=
  ((rules.enum).mergeSort (List.enumLE prioDesc)).map (·.2)

/-- Routing as the spec words it: scan the spec-ordered rules against
the app name, then against the binary name, defaulting to "system". -/
def routeSpec (eng : RegexEngine) (appName : String)
    (binaryName : Option String) (rules : List RouteRule) : String :=
  match (specOrdered rules).find? (fun r => ruleMatches eng r appName) with
  | some r => r.channel
  | none =>
    match binaryName with
    | some bin =>
      match (specOrdered rules).find? (fun r => ruleMatches eng r bin) with
      | some r => r.channel
      | none => "system"
    | none => "system"

/-! ## Channels, mixes, commands (`undertone-core`) -/

/-- `MixType` from `mixer.rs`. -/
inductive MixType where
  | stream
  | monitor
deriving DecidableEq

/-- `ChannelConfig` from `channel.rs`. -/
structure ChannelConfig where
  name : String
  displayName : String
  icon : Option String := none
  color : Option String := none
  sortOrder : Int := 0
  isSystem : Bool := true
deriving DecidableEq

/-- `ChannelConfig::node_name`. -/
def ChannelConfig.nodeName (c : ChannelConfig) : String :=
  "ut-ch-" ++ c.name

/-- `ChannelConfig::stream_vol_node_name`. -/
def ChannelConfig.streamVolName (c : ChannelConfig) : String :=
  "ut-ch-" ++ c.name ++ "-stream-vol"

/-- `ChannelConfig::monitor_vol_node_name`. -/
def ChannelConfig.monitorVolName (c : ChannelConfig) : String :=
  "ut-ch-" ++ c.name ++ "-monitor-vol"

/-- `ChannelState` from `channel.rs` (volumes as rationals). -/
structure ChannelState where
  config : ChannelConfig
  streamVolume : ℚ := 1
  streamMuted : Bool := false
  monitorVolume : ℚ := 1
  monitorMuted : Bool := false
  levelLeft : ℚ := 0
  levelRight : ℚ := 0
  nodeId : Option Nat := none
deriving DecidableEq

/-- `Command` from `command.rs` (all eleven variants). -/
inductive Command where
  | setChannelVolume (channel : String) (mix : MixType) (volume : ℚ)
  | setChannelMute (channel : String) (mix : MixType) (muted : Bool)
  | setAppRoute (appPattern : String) (channel : String)
  | removeAppRoute (appPattern : String)
  | saveProfile (name : String)
  | loadProfile (name : String)
  | deleteProfile (name : String)
  | setMicGain (gain : ℚ)
  | setMicMute (muted : Bool)
  | reconcileCmd
  | shutdownCmd
deriving DecidableEq

/-- Rust `f32::clamp(0.0, 1.0)` on a (finite) value. -/
def clamp01 (v : ℚ) : ℚ :=
  if v < 0 then 0 else if 1 < v then 1 else v

/-! ## Graph objects and the graph cache (`undertone-pipewire`) -/

/-- `PortDirection` from `node.rs`. -/
inductive PortDirection where
  | input
  | output
deriving DecidableEq

/-- `NodeInfo` from `node.rs`. -/
structure NodeInfo where
  id : Nat
  name : String
  description : Option String := none
  mediaClass : Option String := none
  applicationName : Option String := none
  binaryName : Option String := none
  pid : Option Nat := none
  isUndertoneManaged : Bool := false
  properties : List (String × String) := []
deriving DecidableEq

/-- `NodeInfo::is_wave3`. -/
def NodeInfo.isWave3 (n : NodeInfo) : Bool :=
  strStarts n.name "wave3-" || strContains n.name "Elgato" || strContains n.name "Wave:3"

/-- `NodeInfo::is_undertone_channel`. -/
def NodeInfo.isUndertoneChannel (n : NodeInfo) : Bool :=
  strStarts n.name "ut-ch-"

/-- `PortInfo` from `node.rs`. -/
structure PortInfo where
  id : Nat
  name : String
  direction : PortDirection
  nodeId : Nat
  channel : Option String := none
deriving DecidableEq

/-- `LinkState` from `link.rs`. -/
inductive LinkState where
  | linkInit
  | negotiating
  | allocating
  | paused
  | active
  | linkError
  | unlinked
deriving DecidableEq

/-- `LinkInfo` from `link.rs`. -/
structure LinkInfo where
  id : Nat
  outputNode : Nat
  outputPort : Nat := 0
  inputNode : Nat
  inputPort : Nat := 0
  state : LinkState := .active
  isUndertoneManaged : Bool := false
deriving DecidableEq

/-- `VirtualSinkProps` from `node.rs`. -/
structure VirtualSinkProps where
  name : String
  description : String
  channels : Nat := 2
  positions : String := "FL,FR"
deriving DecidableEq

/-- `VirtualSinkProps::stereo`. -/
def VirtualSinkProps.stereo (name description : String) : VirtualSinkProps :=
  { name := name, description := description, channels := 2, positions := "FL,FR" }

/-- The `GraphManager` cache from `graph.rs`.  Each Rust `HashMap` is an
association list in insertion order; `HashMap::insert` overwrites on key
collision. -/
structure Graph where
  nodes : List NodeInfo := []
  ports : List PortInfo := []
  links : List LinkInfo := []
  createdNodes : List (String × Nat) := []
  createdLinks : List (String × Nat) := []
deriving DecidableEq

/-- The empty cache (`GraphManager::new`). -/
def Graph.empty : Graph := {}

/-- `GraphManager::add_node` (insert by id, overwriting). -/
def Graph.addNode (g : Graph) (n : NodeInfo) : Graph :=
  { g with nodes := g.nodes.filter (fun m => m.id != n.id) ++ [n] }

/-- `GraphManager::remove_node`. -/
def Graph.removeNode (g : Graph) (id : Nat) : Graph :=
  { g with nodes := g.nodes.filter (fun m => m.id != id) }

/-- `GraphManager::get_node`. -/
def Graph.getNode (g : Graph) (id : Nat) : Option NodeInfo :=
  g.nodes.find? (fun n => n.id == id)

/-- `GraphManager::get_node_by_name` (scan, first match). -/
def Graph.getNodeByName (g : Graph) (name : String) : Option NodeInfo :=
  g.nodes.find? (fun n => n.name == name)

/-- `GraphManager::add_port` (insert by id, overwriting). -/
def Graph.addPort (g : Graph) (p : PortInfo) : Graph :=
  { g with ports := g.ports.filter (fun q => q.id != p.id) ++ [p] }

/-- `GraphManager::remove_port`. -/
def Graph.removePort (g : Graph) (id : Nat) : Graph :=
  { g with ports := g.ports.filter (fun q => q.id != id) }

/-- `GraphManager::add_link` (insert by id, overwriting). -/
def Graph.addLink (g : Graph) (l : LinkInfo) : Graph :=
  { g with links := g.links.filter (fun k => k.id != l.id) ++ [l] }

/-- `GraphManager::get_link`. -/
def Graph.getLink (g : Graph) (id : Nat) : Option LinkInfo :=
  g.links.find? (fun l => l.id == id)

/-- `GraphManager::has_link`: some cached link runs from `outputNode` to
`inputNode`. -/
def Graph.hasLink (g : Graph) (outputNode inputNode : Nat) : Bool :=
  g.links.any (fun l => l.outputNode == outputNode && l.inputNode == inputNode)

/-- The numeric value of a decimal digit character. -/
def digitVal? (c : Char) : Option Nat :=
  if c = '0' then some 0 else if c = '1' then some 1 else if c = '2' then some 2
  else if c = '3' then some 3 else if c = '4' then some 4 else if c = '5' then some 5
  else if c = '6' then some 6 else if c = '7' then some 7 else if c = '8' then some 8
  else if c = '9' then some 9 else none

/-- Accumulate a decimal number over a digit list. -/
def parseNatList : List Char → Nat → Option Nat
  | [], acc => some acc
  | c :: cs, acc =>
    match digitVal? c with
    | some d => parseNatList cs (acc * 10 + d)
    | none => none

/-- Rust `str::parse::<u32>().ok()` on the plain-decimal strings the
registry delivers. -/
def parseNat? (s : String) : Option Nat :=
  match s.data with
  | [] => none
  | l => parseNatList l 0

/-- Property lookup in a node's property dictionary. -/
def propGet (props : List (String × String)) (key : String) : Option String :=
  (props.find? (fun p => p.1 == key)).map (·.2)

/-- `GraphManager::find_wave3_sink`: first the custom WirePlumber name,
then a property/name scan restricted to `Audio/Sink` nodes. -/
def Graph.findWave3Sink (g : Graph) : Option NodeInfo :=
  match g.getNodeByName "wave3-sink" with
  | some n => some n
  | none =>
    g.nodes.find? (fun n =>
      let isWave3Vendor := (propGet n.properties "device.vendor.id") == some "0x0fd9"
      let isWave3Product := (propGet n.properties "device.product.id") == some "0x0070"
      let isSink := n.mediaClass == some "Audio/Sink"
      let isAlsa := strStarts n.name "alsa_output"
      let isWave3ByName := strContains n.name "Elgato" && strContains n.name "Wave" && isSink
      let isWave3ById := isWave3Vendor && isWave3Product && isSink
      (isWave3ById || isWave3ByName || (isAlsa && n.isWave3)) && isSink)

/-- `GraphManager::get_undertone_channels` (every node whose name starts
with `ut-ch-`, volume filters included). -/
def Graph.getUndertoneChannels (g : Graph) : List NodeInfo :=
  g.nodes.filter (fun n => n.isUndertoneChannel)

/-- `GraphManager::record_created_node` (insert by name, overwriting). -/
def Graph.recordCreatedNode (g : Graph) (name : String) (id : Nat) : Graph :=
  { g with createdNodes := g.createdNodes.filter (fun p => p.1 != name) ++ [(name, id)] }

/-- `GraphManager::record_created_link`. -/
def Graph.recordCreatedLink (g : Graph) (description : String) (id : Nat) : Graph :=
  { g with createdLinks := g.createdLinks.filter (fun p => p.1 != description) ++ [(description, id)] }

/-- `GraphManager::get_created_node_id`. -/
def Graph.getCreatedNodeId (g : Graph) (name : String) : Option Nat :=
  ((g.createdNodes).find? (fun p => p.1 == name)).map (·.2)

/-! ## Reconciler (`undertone-pipewire/src/reconcile.rs`)

`Reconciler::reconcile` pushes actions into one vector; here each block
of pushes is a named segment, and `reconcile` is their concatenation in
push order.  The source computes `stream_mix` and `monitor_mix` once
before the link loops; since the graph is not mutated the lookups are
inlined. -/

/-- `ReconcileAction` from `reconcile.rs`. -/
inductive ReconcileAction where
  | createSink (props : VirtualSinkProps)
  | createLink (outputNode outputPort inputNode inputPort : String)
  | destroyNode (id : Nat)
  | destroyLink (id : Nat)
  | warn (msg : String)
deriving DecidableEq

/-- Is this action a `CreateSink`? -/
def ReconcileAction.isCreateSink : ReconcileAction → Bool
  | .createSink _ => true
  | _ => false

/-- Is this action a `CreateLink`? -/
def ReconcileAction.isCreateLink : ReconcileAction → Bool
  | .createLink _ _ _ _ => true
  | _ => false

/-- First block: a `CreateSink` per channel whose sink node is missing. -/
def channelSinkActs : List ChannelConfig → Graph → List ReconcileAction
  | [], _ => []
  | ch :: rest, g =>
    (if (g.getNodeByName ch.nodeName).isNone then
      [ReconcileAction.createSink (VirtualSinkProps.stereo ch.nodeName
        ("Undertone: " ++ ch.displayName ++ " Channel"))]
     else []) ++ channelSinkActs rest g

/-- The `required_mixes` table from `reconcile.rs`. -/
def requiredMixes : List (String × String) :=
  [("ut-stream-mix", "Undertone: Stream Mix"),
   ("ut-stream-out", "Undertone: Stream Output"),
   ("ut-monitor-mix", "Undertone: Monitor Mix")]

/-- Second block: a `CreateSink` per missing required mix node. -/
def mixSinkActs : List (String × String) → Graph → List ReconcileAction
  | [], _ => []
  | (name, description) :: rest, g =>
    (if (g.getNodeByName name).isNone then
      [ReconcileAction.createSink (VirtualSinkProps.stereo name description)]
     else []) ++ mixSinkActs rest g

/-- Third block: a `CreateSink` per missing volume-filter node (stream
then monitor, per channel). -/
def filterSinkActs : List ChannelConfig → Graph → List ReconcileAction
  | [], _ => []
  | ch :: rest, g =>
    (if (g.getNodeByName ch.streamVolName).isNone then
      [ReconcileAction.createSink (VirtualSinkProps.stereo ch.streamVolName
        ("Undertone: " ++ ch.displayName ++ " Stream Volume"))]
     else []) ++
    (if (g.getNodeByName ch.monitorVolName).isNone then
      [ReconcileAction.createSink (VirtualSinkProps.stereo ch.monitorVolName
        ("Undertone: " ++ ch.displayName ++ " Monitor Volume"))]
     else []) ++
    filterSinkActs rest g

/-- Fourth block: a `Warn` when the Wave:3 sink is absent. -/
def wave3WarnActs (g : Graph) : List ReconcileAction :=
  if (g.findWave3Sink).isNone then
    [ReconcileAction.warn "Wave:3 sink not found - device may be disconnected"]
  else []

/-- Stream-volume-filter → stream-mix stereo pair for one channel, when
both endpoints are cached and no link runs between them. -/
def streamVolLinkActs (ch : ChannelConfig) (g : Graph) : List ReconcileAction :=
  match g.getNodeByName ch.streamVolName, g.getNodeByName "ut-stream-mix" with
  | some volNode, some mixNode =>
    if g.hasLink volNode.id mixNode.id then []
    else
      [ReconcileAction.createLink ch.streamVolName "monitor_FL" "ut-stream-mix" "playback_FL",
       ReconcileAction.createLink ch.streamVolName "monitor_FR" "ut-stream-mix" "playback_FR"]
  | _, _ => []

/-- Monitor-volume-filter → monitor-mix stereo pair for one channel. -/
def monitorVolLinkActs (ch : ChannelConfig) (g : Graph) : List ReconcileAction :=
  match g.getNodeByName ch.monitorVolName, g.getNodeByName "ut-monitor-mix" with
  | some volNode, some mixNode =>
    if g.hasLink volNode.id mixNode.id then []
    else
      [ReconcileAction.createLink ch.monitorVolName "monitor_FL" "ut-monitor-mix" "playback_FL",
       ReconcileAction.createLink ch.monitorVolName "monitor_FR" "ut-monitor-mix" "playback_FR"]
  | _, _ => []

/-- Fifth block: per channel, the stream pair then the monitor pair. -/
def channelLinkActs : List ChannelConfig → Graph → List ReconcileAction
  | [], _ => []
  | ch :: rest, g =>
    streamVolLinkActs ch g ++ monitorVolLinkActs ch g ++ channelLinkActs rest g

/-- Sixth block: stream-mix → stream-out stereo pair. -/
def streamOutLinkActs (g : Graph) : List ReconcileAction :=
  match g.getNodeByName "ut-stream-mix", g.getNodeByName "ut-stream-out" with
  | some streamMixNode, some streamOut =>
    if g.hasLink streamMixNode.id streamOut.id then []
    else
      [ReconcileAction.createLink "ut-stream-mix" "monitor_FL" "ut-stream-out" "playback_FL",
       ReconcileAction.createLink "ut-stream-mix" "monitor_FR" "ut-stream-out" "playback_FR"]
  | _, _ => []

/-- Seventh block: monitor-mix → Wave:3 sink stereo pair. -/
def wave3LinkActs (g : Graph) : List ReconcileAction :=
  match g.getNodeByName "ut-monitor-mix", g.findWave3Sink with
  | some monitorMixNode, some wave3 =>
    if g.hasLink monitorMixNode.id wave3.id then []
    else
      [ReconcileAction.createLink "ut-monitor-mix" "monitor_FL" wave3.name "playback_FL",
       ReconcileAction.createLink "ut-monitor-mix" "monitor_FR" wave3.name "playback_FR"]
  | _, _ => []

/-- `Reconciler::reconcile`: the seven blocks in push order. -/
def reconcile (channels : List ChannelConfig) (g : Graph) : List ReconcileAction :=
  channelSinkActs channels g ++ mixSinkActs requiredMixes g ++
  filterSinkActs channels g ++ wave3WarnActs g ++
  channelLinkActs channels g ++ streamOutLinkActs g ++ wave3LinkActs g

/-- `Reconciler::is_healthy`. -/
def isHealthy (channels : List ChannelConfig) (g : Graph) : Bool :=
  reconcile channels g |>.isEmpty

/-! ## Applying reconcile actions to the cache (for the idempotence claim)

"G·A is the cache after all actions in A have been successfully applied
(created nodes present under their names, created links present between
their node pairs)."  A `CreateSink` adds the announced sink node under a
fresh id; a `CreateLink` adds a link between the ids of the nodes the
cache resolves its endpoint names to (no-op if an endpoint is missing);
`Warn` changes nothing (`DestroyNode`/`DestroyLink` are never emitted). -/

/-- A fresh object id: one past every id in the cache. -/
def Graph.freshId (g : Graph) : Nat :=
  ((g.nodes.map (·.id)) ++ (g.links.map (·.id))).foldr max 0 + 1

/-- The cache record of a successfully created sink (as announced by the
registry: named as requested, `Audio/Sink`, marked managed). -/
def mkSinkNode (g : Graph) (props : VirtualSinkProps) : NodeInfo :=
  { id := g.freshId
    name := props.name
    description := some props.description
    mediaClass := some "Audio/Sink"
    isUndertoneManaged := true
    properties := [("undertone.managed", "true")] }

/-- Apply one successfully executed reconcile action to the cache. -/
def applyAction (g : Graph) : ReconcileAction → Graph
  | .createSink props => g.addNode (mkSinkNode g props)
  | .createLink outName _ inName _ =>
    match g.getNodeByName outName, g.getNodeByName inName with
    | some a, some b =>
      g.addLink { id := g.freshId, outputNode := a.id, inputNode := b.id, state := .linkInit }
    | _, _ => g
  | _ => g

/-- Apply a list of reconcile actions left to right. -/
def applyActions (g : Graph) (actions : List ReconcileAction) : Graph :=
  actions.foldl applyAction g

/-- All desired nodes of the reconciler topology are in the cache. -/
def allDesiredPresent (channels : List ChannelConfig) (g : Graph) : Bool :=
  channels.all (fun ch =>
    (g.getNodeByName ch.nodeName).isSome &&
    (g.getNodeByName ch.streamVolName).isSome &&
    (g.getNodeByName ch.monitorVolName).isSome) &&
  (g.getNodeByName "ut-stream-mix").isSome &&
  (g.getNodeByName "ut-stream-out").isSome &&
  (g.getNodeByName "ut-monitor-mix").isSome

/-! ## Registry event handling (`undertone-pipewire/src/runtime.rs`) -/

/-- `GraphEvent` from `monitor.rs`. -/
inductive GraphEvent where
  | connected
  | disconnected
  | nodeAdded (node : NodeInfo)
  | nodeRemoved (id : Nat) (name : String)
  | portAdded (port : PortInfo)
  | portRemoved (id : Nat)
  | linkCreated (id outputNode inputNode : Nat)
  | linkRemoved (id : Nat)
  | wave3Detected (serial : String)
  | wave3Removed
  | clientAppeared (id : Nat) (name : String) (pid : Option Nat)
  | clientDisappeared (id : Nat)
deriving DecidableEq

/-- Is this event a `PortRemoved`? -/
def GraphEvent.isPortRemoved : GraphEvent → Bool
  | .portRemoved _ => true
  | _ => false

/-- A registry global, as delivered to the `global` listener: its object
type, id, and property dictionary. -/
inductive GlobalObj where
  | node (id : Nat) (props : List (String × String))
  | port (id : Nat) (props : List (String × String))
  | link (id : Nat) (props : List (String × String))
  | other (id : Nat)
deriving DecidableEq

/-- The PipeWire-thread state relevant to the registry listeners: the
id → node-name tracking map (`nodes` in `run_pipewire_thread`) and the
shared graph cache. -/
structure RtState where
  nodesMap : List (Nat × String) := []
  graph : Graph := {}
deriving DecidableEq

/-- Insert into the id → name map, overwriting on id collision. -/
def insertNodesMap (m : List (Nat × String)) (id : Nat) (name : String) :
    List (Nat × String) :=
  m.filter (fun p => p.1 != id) ++ [(id, name)]

/-- Look up an id in the id → name map. -/
def lookupNodesMap (m : List (Nat × String)) (id : Nat) : Option String :=
  (m.find? (fun p => p.1 == id)).map (·.2)

/-- The `NodeInfo` record that `handle_global` builds from a node
global's properties. -/
def nodeInfoOfProps (id : Nat) (props : List (String × String)) : NodeInfo :=
  let name := (propGet props "node.name").getD "unknown"
  { id := id
    name := name
    description := propGet props "node.description"
    mediaClass := propGet props "media.class"
    applicationName := propGet props "application.name"
    binaryName := propGet props "application.process.binary"
    pid := (propGet props "application.process.id").bind parseNat?
    isUndertoneManaged := strStarts name "ut-" || (propGet props "undertone.managed").isSome
    properties := props }

/-- The `PortInfo` record that `handle_global` builds from a port
global's properties. -/
def portInfoOfProps (id : Nat) (props : List (String × String)) : PortInfo :=
  { id := id
    name := (propGet props "port.name").getD "unknown"
    direction :=
      match propGet props "port.direction" with
      | some d => if d == "in" then .input else .output
      | none => .output
    nodeId := ((propGet props "node.id").bind parseNat?).getD 0
    channel := propGet props "audio.channel" }

/-- `handle_global` from `runtime.rs`: reaction to a registry
global-added event.  Returns the updated thread state and the graph
events sent on the outbound channel, in emission order. -/
def handleGlobal (st : RtState) : GlobalObj → RtState × List GraphEvent
  | .node id props =>
    let info := nodeInfoOfProps id props
    let events :=
      [GraphEvent.nodeAdded info] ++
      (if info.isWave3 && info.name == "wave3-source" then
        [GraphEvent.wave3Detected ((propGet props "device.serial").getD "unknown")]
       else []) ++
      (if info.mediaClass == some "Stream/Output/Audio" && !info.isUndertoneManaged then
        [GraphEvent.clientAppeared id ((propGet props "application.name").getD info.name) info.pid]
       else [])
    ({ nodesMap := insertNodesMap st.nodesMap id info.name
       graph := st.graph.addNode info }, events)
  | .port id props =>
    let info := portInfoOfProps id props
    ({ st with graph := st.graph.addPort info }, [GraphEvent.portAdded info])
  | .link id props =>
    let outputNode := ((propGet props "link.output.node").bind parseNat?).getD 0
    let inputNode := ((propGet props "link.input.node").bind parseNat?).getD 0
    (st, [GraphEvent.linkCreated id outputNode inputNode])
  | .other _ => (st, [])

/-- `handle_global_remove` from `runtime.rs`: an id found in the
tracking map is reported as a node removal (plus `Wave3Removed` for the
microphone); any other id is reported as `LinkRemoved`. -/
def handleGlobalRemove (st : RtState) (id : Nat) : RtState × List GraphEvent :=
  match lookupNodesMap st.nodesMap id with
  | some name =>
    ({ st with nodesMap := st.nodesMap.filter (fun p => p.1 != id) },
     (if name == "wave3-source" then [GraphEvent.wave3Removed] else []) ++
     [GraphEvent.nodeRemoved id name])
  | none => (st, [GraphEvent.linkRemoved id])

/-- The node/port/link cache mutations the daemon event loop
(`main.rs`) performs per graph event: `NodeRemoved` evicts the node,
`PortRemoved` evicts the port; no other arm touches the node, port or
link maps (the `Wave3Detected` arm only records created links). -/
def eventLoopCacheStep (g : Graph) : GraphEvent → Graph
  | .nodeRemoved id _ => g.removeNode id
  | .portRemoved id => g.removePort id
  | _ => g

/-- A registry global-removed, end to end: the PipeWire thread turns it
into events, which the event loop then applies to the cache. -/
def registryRemoveStep (st : RtState) (id : Nat) : RtState × List GraphEvent :=
  let step := handleGlobalRemove st id
  ({ step.1 with graph := step.2.foldl eventLoopCacheStep step.1.graph }, step.2)

/-! ## IPC request handling (`undertone-daemon/src/server.rs`)

The `Method` variants `SetMasterVolume`, `SetMasterMute` and
`SetMonitorOutput` are omitted: their `server.rs` arms construct
`Command::SetMasterVolume` / `SetMasterMute` / `SetMonitorOutput`
variants that do not exist in `command.rs` (and `main.rs` has no match
arms for them), so the source as given assigns them no behaviour. -/

/-- `AppRoute` from `routing.rs`. -/
structure AppRoute where
  appId : Nat
  appName : String
  binaryName : Option String := none
  pid : Option Nat := none
  channel : String
  isPersistent : Bool := false
deriving DecidableEq

/-- `ProfileSummary` from `profile.rs`/`db`. -/
structure ProfileSummary where
  name : String
  isDefault : Bool
  description : Option String := none
deriving DecidableEq

/-- `MixerState` from `mixer.rs` (volumes as rationals). -/
structure MixerState where
  streamMasterVolume : ℚ := 1
  streamMasterMuted : Bool := false
  monitorMasterVolume : ℚ := 1
  monitorMasterMuted : Bool := false
  micToStream : Bool := true
  micStreamVolume : ℚ := 1
  micToMonitor : Bool := false
  micMonitorVolume : ℚ := 0
deriving DecidableEq

/-- `OutputDevice` from `state.rs`. -/
structure OutputDevice where
  name : String
  description : String
  nodeId : Nat
deriving DecidableEq

/-- `DaemonState` from `state.rs`. -/
inductive DaemonState where
  | initializing
  | waitingForDevice
  | creatingNodes
  | running
  | deviceDisconnected
  | reconciling
  | shuttingDown
  | errorState (message : String)
deriving DecidableEq

/-- `StateSnapshot` from `state.rs`. -/
structure StateSnapshot where
  state : DaemonState
  deviceConnected : Bool
  deviceSerial : Option String
  channels : List ChannelState
  appRoutes : List AppRoute
  mixer : MixerState
  activeProfile : String
  profiles : List ProfileSummary
  outputDevices : List OutputDevice
  monitorOutput : String
  createdNodes : List (String × Nat)
  createdLinks : List (String × Nat)
deriving DecidableEq

/-- `ErrorInfo` from `messages.rs`. -/
structure ErrorInfo where
  code : Int
  message : String
deriving DecidableEq

/-- The semantic content of the JSON values `handle_request` replies
with, one constructor per response shape. -/
inductive RespData where
  | stateSnap (s : StateSnapshot)
  | channelList (cs : List ChannelState)
  | channelOne (c : ChannelState)
  | appList (rs : List AppRoute)
  | profileList (ps : List ProfileSummary)
  | profileOne (p : ProfileSummary)
  | deviceStatus (connected : Bool) (serial : Option String)
  | diagnostics (state : DaemonState) (createdNodes createdLinks : Nat)
  | successVolume (success : Bool) (volume : ℚ)
  | successMuted (success : Bool) (muted : Bool)
  | successGain (success : Bool) (gain : ℚ)
  | successOnly (success : Bool)
  | outputDeviceList (devices : List OutputDevice) (current : String)
deriving DecidableEq

/-- `Method` from `messages.rs` (see the section comment for the three
omitted master/monitor-output variants). -/
inductive Method where
  | getState
  | getChannels
  | getChannel (name : String)
  | getApps
  | getProfiles
  | getProfile (name : String)
  | getDeviceStatus
  | getDiagnostics
  | setChannelVolume (channel : String) (mix : MixType) (volume : ℚ)
  | setChannelMute (channel : String) (mix : MixType) (muted : Bool)
  | setAppRoute (appPattern : String) (channel : String)
  | removeAppRoute (appPattern : String)
  | saveProfile (name : String)
  | loadProfile (name : String)
  | deleteProfile (name : String)
  | setMicGain (gain : ℚ)
  | setMicMute (muted : Bool)
  | getOutputDevices
  | subscribeEvents (events : List String)
  | unsubscribeEvents (events : List String)
  | shutdownReq
  | reconcileReq
deriving DecidableEq

instance {ε α : Type _} [DecidableEq ε] [DecidableEq α] : DecidableEq (Except ε α) := fun a b =>
  match a, b with
  | .ok x, .ok y =>
    if h : x = y then isTrue (h ▸ rfl) else isFalse (fun hh => h (Except.ok.inj hh))
  | .error x, .error y =>
    if h : x = y then isTrue (h ▸ rfl) else isFalse (fun hh => h (Except.error.inj hh))
  | .ok _, .error _ => isFalse (fun hh => Except.noConfusion hh)
  | .error _, .ok _ => isFalse (fun hh => Except.noConfusion hh)

/-- `HandleResult` from `server.rs`. -/
structure HandleResult where
  response : Except ErrorInfo RespData
  command : Option Command := none
deriving DecidableEq

/-- `channel_exists` from `server.rs`. -/
def channelExists (snap : StateSnapshot) (channel : String) : Bool :=
  snap.channels.any (fun c => c.config.name == channel)

/-- The 404 response `HandleResult::channel_not_found`. -/
def channelNotFound (channel : String) : HandleResult :=
  { response := .error { code := 404, message := "Channel not found: " ++ channel } }

/-- `handle_request` from `server.rs`. -/
def handleRequest (m : Method) (snap : StateSnapshot) : HandleResult :=
  match m with
  | .getState => { response := .ok (.stateSnap snap) }
  | .getChannels => { response := .ok (.channelList snap.channels) }
  | .getChannel name =>
    match snap.channels.find? (fun c => c.config.name == name) with
    | some c => { response := .ok (.channelOne c) }
    | none => { response := .error { code := 404, message := "Channel not found: " ++ name } }
  | .getApps => { response := .ok (.appList snap.appRoutes) }
  | .getProfiles => { response := .ok (.profileList snap.profiles) }
  | .getProfile name =>
    match snap.profiles.find? (fun p => p.name == name) with
    | some p => { response := .ok (.profileOne p) }
    | none => { response := .error { code := 404, message := "Profile not found: " ++ name } }
  | .getDeviceStatus =>
    { response := .ok (.deviceStatus snap.deviceConnected snap.deviceSerial) }
  | .getDiagnostics =>
    { response := .ok (.diagnostics snap.state snap.createdNodes.length snap.createdLinks.length) }
  | .setChannelVolume channel mix volume =>
    if !channelExists snap channel then channelNotFound channel
    else
      let volume := clamp01 volume
      { response := .ok (.successVolume true volume)
        command := some (.setChannelVolume channel mix volume) }
  | .setChannelMute channel mix muted =>
    if !channelExists snap channel then channelNotFound channel
    else
      { response := .ok (.successMuted true muted)
        command := some (.setChannelMute channel mix muted) }
  | .setAppRoute appPattern channel =>
    if !channelExists snap channel then channelNotFound channel
    else
      { response := .ok (.successOnly true)
        command := some (.setAppRoute appPattern channel) }
  | .removeAppRoute appPattern =>
    { response := .ok (.successOnly true), command := some (.removeAppRoute appPattern) }
  | .saveProfile name =>
    { response := .ok (.successOnly true), command := some (.saveProfile name) }
  | .loadProfile name =>
    { response := .ok (.successOnly true), command := some (.loadProfile name) }
  | .deleteProfile name =>
    { response := .ok (.successOnly true), command := some (.deleteProfile name) }
  | .setMicGain gain =>
    let gain := clamp01 gain
    { response := .ok (.successGain true gain), command := some (.setMicGain gain) }
  | .setMicMute muted =>
    { response := .ok (.successMuted true muted), command := some (.setMicMute muted) }
  | .getOutputDevices =>
    { response := .ok (.outputDeviceList snap.outputDevices snap.monitorOutput) }
  | .subscribeEvents _ => { response := .ok (.successOnly true) }
  | .unsubscribeEvents _ => { response := .ok (.successOnly true) }
  | .shutdownReq => { response := .ok (.successOnly true), command := some .shutdownCmd }
  | .reconcileReq => { response := .ok (.successOnly true), command := some .reconcileCmd }

/-! ## Event-loop command application (`undertone-daemon/src/main.rs`) -/

/-- IPC events broadcast by the command arms of the event loop. -/
inductive IpcEvent where
  | channelVolumeChanged (channel : String) (mix : MixType) (volume : ℚ)
  | channelMuteChanged (channel : String) (mix : MixType) (muted : Bool)
deriving DecidableEq

/-- The event loop's mutable state plus logs of its outward effects:
store writes, PipeWire parameter/link requests, and broadcast IPC
events.  `profiles` backs the snapshot field that `main.rs`'s snapshot
literal leaves unset (the source omits it). -/
structure DaemonCtx where
  channels : List ChannelState
  routes : List RouteRule := []
  profiles : List ProfileSummary :=
    [{ name := "Default", isDefault := true,
       description := some "Default mixer configuration" }]
  graph : Graph := {}
  state : DaemonState := .running
  deviceConnected : Bool := false
  deviceSerial : Option String := none
  dbChannelWrites : List (String × ChannelState) := []
  dbRouteSaves : List RouteRule := []
  dbRouteDeletes : List String := []
  dbProfileDeletes : List String := []
  pwVolumeCalls : List (Nat × ℚ) := []
  pwMuteCalls : List (Nat × Bool) := []
  pwRouteCalls : List (Nat × String) := []
  ipcEvents : List IpcEvent := []
  shutdownRequested : Bool := false
deriving DecidableEq

/-- Update the first channel state with the given name
(`channels.iter_mut().find(..)`). -/
def updateChannel (cs : List ChannelState) (name : String)
    (f : ChannelState → ChannelState) : List ChannelState :=
  match cs with
  | [] => []
  | c :: rest =>
    if c.config.name == name then f c :: rest
    else c :: updateChannel rest name f

/-- The volume-filter node name the event loop targets:
`ut-ch-{channel}-stream-vol` / `ut-ch-{channel}-monitor-vol`. -/
def filterNodeName (channel : String) (mix : MixType) : String :=
  match mix with
  | .stream => "ut-ch-" ++ channel ++ "-stream-vol"
  | .monitor => "ut-ch-" ++ channel ++ "-monitor-vol"

/-- `GraphManager::get_audio_clients`. -/
def Graph.getAudioClients (g : Graph) : List NodeInfo :=
  g.nodes.filter (fun n =>
    n.mediaClass == some "Stream/Output/Audio" && !n.isUndertoneManaged && !n.isWave3)

/-- The `SetAppRoute` re-link test from `main.rs`: the new (exact) rule
matched against the client's application name, binary name, or node
name.  The rule is always `PatternType::Exact`, so the regex engine is
irrelevant; `modelEngine` is passed for concreteness. -/
def clientMatchesRule (rule : RouteRule) (client : NodeInfo) : Bool :=
  (match client.applicationName with
   | some n => ruleMatches modelEngine rule n
   | none => false) ||
  (match client.binaryName with
   | some n => ruleMatches modelEngine rule n
   | none => false) ||
  ruleMatches modelEngine rule client.name

/-- The command-processing arm of the event loop in `main.rs`, one
branch per `Command` variant.  `SaveProfile`, `LoadProfile`,
`DeleteProfile`, `SetMicGain` and `SetMicMute` are `TODO` stubs that
only log; `Reconcile` sets the state to `Reconciling` and immediately
back to `Running` (net effect recorded). -/
def applyCommand (ctx : DaemonCtx) : Command → DaemonCtx
  | .setChannelVolume channel mix volume =>
    if ctx.channels.any (fun c => c.config.name == channel) then
      let channels := updateChannel ctx.channels channel (fun c =>
        match mix with
        | .stream => { c with streamVolume := volume }
        | .monitor => { c with monitorVolume := volume })
      let pwVolumeCalls :=
        match ctx.graph.getCreatedNodeId (filterNodeName channel mix) with
        | some nodeId => ctx.pwVolumeCalls ++ [(nodeId, volume)]
        | none => ctx.pwVolumeCalls
      { ctx with
        channels := channels
        pwVolumeCalls := pwVolumeCalls
        ipcEvents := ctx.ipcEvents ++ [.channelVolumeChanged channel mix volume] }
    else ctx
  | .setChannelMute channel mix muted =>
    if ctx.channels.any (fun c => c.config.name == channel) then
      let channels := updateChannel ctx.channels channel (fun c =>
        match mix with
        | .stream => { c with streamMuted := muted }
        | .monitor => { c with monitorMuted := muted })
      let pwMuteCalls :=
        match ctx.graph.getCreatedNodeId (filterNodeName channel mix) with
        | some nodeId => ctx.pwMuteCalls ++ [(nodeId, muted)]
        | none => ctx.pwMuteCalls
      { ctx with
        channels := channels
        pwMuteCalls := pwMuteCalls
        ipcEvents := ctx.ipcEvents ++ [.channelMuteChanged channel mix muted] }
    else ctx
  | .setAppRoute appPattern channel =>
    let rule : RouteRule :=
      { pattern := appPattern, patternType := .exact, channel := channel, priority := 100 }
    let routes := ctx.routes.filter (fun r => r.pattern != appPattern) ++ [rule]
    let matching := (ctx.graph.getAudioClients).filter (clientMatchesRule rule)
    { ctx with
      routes := routes
      dbRouteSaves := ctx.dbRouteSaves ++ [rule]
      pwRouteCalls := ctx.pwRouteCalls ++ matching.map (fun c => (c.id, channel)) }
  | .removeAppRoute appPattern =>
    { ctx with
      routes := ctx.routes.filter (fun r => r.pattern != appPattern)
      dbRouteDeletes := ctx.dbRouteDeletes ++ [appPattern] }
  | .saveProfile _ => ctx
  | .loadProfile _ => ctx
  | .deleteProfile _ => ctx
  | .setMicGain _ => ctx
  | .setMicMute _ => ctx
  | .reconcileCmd => { ctx with state := .running }
  | .shutdownCmd => { ctx with shutdownRequested := true }

/-- The snapshot the event loop builds per IPC request (`main.rs`):
`app_routes` is hard-coded empty, `mixer` is defaulted and
`active_profile` hard-coded "Default"; `profiles`, `output_devices`
and `monitor_output` are absent from the source literal and modelled
by the daemon's profile list and the `StateSnapshot` defaults. -/
def snapshotOf (ctx : DaemonCtx) : StateSnapshot :=
  { state := ctx.state
    deviceConnected := ctx.deviceConnected
    deviceSerial := ctx.deviceSerial
    channels := ctx.channels
    appRoutes := []
    mixer := {}
    activeProfile := "Default"
    profiles := ctx.profiles
    outputDevices := []
    monitorOutput := "wave3-sink"
    createdNodes := ctx.graph.createdNodes
    createdLinks := ctx.graph.createdLinks }

/-- One IPC request through the event loop: build the snapshot, run
`handle_request`, send the response, then apply the returned command. -/
def processRequest (m : Method) (ctx : DaemonCtx) :
    Except ErrorInfo RespData × DaemonCtx :=
  let hr := handleRequest m (snapshotOf ctx)
  (hr.response,
   match hr.command with
   | some cmd => applyCommand ctx cmd
   | none => ctx)

/-- The stored (in-memory) volume of a channel for a mix. -/
def storedVolume (ctx : DaemonCtx) (channel : String) (mix : MixType) : Option ℚ :=
  (ctx.channels.find? (fun c => c.config.name == channel)).map (fun c =>
    match mix with
    | .stream => c.streamVolume
    | .monitor => c.monitorVolume)

/-- The volume-range invariant: every stored channel volume lies in
[0, 1]. -/
def volumesOk (cs : List ChannelState) : Prop :=
  ∀ c ∈ cs, 0 ≤ c.streamVolume ∧ c.streamVolume ≤ 1 ∧
    0 ≤ c.monitorVolume ∧ c.monitorVolume ≤ 1

instance (cs : List ChannelState) : Decidable (volumesOk cs) := by
  unfold volumesOk; infer_instance

/-! ## Cold start (`main.rs` + the factory helpers of `runtime.rs`)

An ideal-execution model of the startup sequence: every factory request
succeeds, each created node is announced by the registry and lands in
the graph cache before it is next needed, and map iteration follows
insertion order. -/

/-- The PipeWire-side simulation state: the graph cache, the list of
link-creation factory requests issued (output node id, output port,
input node id, input port), and an id counter. -/
structure PwSim where
  graph : Graph := {}
  linkRequests : List (Nat × String × Nat × String) := []
  nextId : Nat := 100
deriving DecidableEq

/-- `capitalize` from `runtime.rs`. -/
def capitalize (s : String) : String :=
  match s.data with
  | [] => ""
  | c :: cs => String.mk (c.toUpper :: cs)

/-- `DEFAULT_CHANNELS` from `main.rs`. -/
def defaultChannelNames : List String :=
  ["system", "voice", "music", "browser", "game"]

/-- Ideal `create_sink`: the node is created and announced, appearing in
the cache named as requested, `Audio/Sink`, managed. -/
def PwSim.createSink (sim : PwSim) (name description : String)
    (extraProps : List (String × String)) : NodeInfo × PwSim :=
  let n : NodeInfo :=
    { id := sim.nextId
      name := name
      description := some description
      mediaClass := some "Audio/Sink"
      isUndertoneManaged := true
      properties := [("undertone.managed", "true")] ++ extraProps }
  (n, { sim with graph := sim.graph.addNode n, nextId := sim.nextId + 1 })

/-- `create_channel_sinks`: one `ut-ch-{name}` sink per channel name,
recorded in the created-nodes registry by `main.rs`. -/
def createChannelSinksSim : List String → PwSim → PwSim
  | [], sim => sim
  | name :: rest, sim =>
    let nodeName := "ut-ch-" ++ name
    let step := sim.createSink nodeName ("Undertone: " ++ capitalize name ++ " Channel") []
    let sim1 := { step.2 with graph := step.2.graph.recordCreatedNode step.1.name step.1.id }
    createChannelSinksSim rest sim1

/-- `create_mix_nodes`: only `ut-stream-mix` and `ut-monitor-mix` (no
stream-out node), recorded by `main.rs`. -/
def createMixNodesSim (sim : PwSim) : PwSim :=
  let step1 := sim.createSink "ut-stream-mix" "Undertone: Stream Mix" []
  let sim1 := { step1.2 with graph := step1.2.graph.recordCreatedNode step1.1.name step1.1.id }
  let step2 := sim1.createSink "ut-monitor-mix" "Undertone: Monitor Mix" []
  { step2.2 with graph := step2.2.graph.recordCreatedNode step2.1.name step2.1.id }

/-- `create_channel_volume_filters`: per channel a stream filter then a
monitor filter, recorded by `main.rs`. -/
def createVolumeFiltersSim : List String → PwSim → PwSim
  | [], sim => sim
  | name :: rest, sim =>
    let svName := "ut-ch-" ++ name ++ "-stream-vol"
    let step1 := sim.createSink svName ("Undertone: " ++ capitalize name ++ " Stream Volume")
      [("undertone.volume-filter", "true"), ("monitor.channel-volumes", "true")]
    let sim1 := { step1.2 with graph := step1.2.graph.recordCreatedNode step1.1.name step1.1.id }
    let mvName := "ut-ch-" ++ name ++ "-monitor-vol"
    let step2 := sim1.createSink mvName ("Undertone: " ++ capitalize name ++ " Monitor Volume")
      [("undertone.volume-filter", "true"), ("monitor.channel-volumes", "true")]
    let sim2 := { step2.2 with graph := step2.2.graph.recordCreatedNode step2.1.name step2.1.id }
    createVolumeFiltersSim rest sim2

/-- Ideal `create_stereo_links`: issue the FL then FR link-factory
requests; both succeed, returning fresh link ids.  (The registry
announces the links, but `handle_global` does not insert links into the
cache, so `graph.links` stays as is.) -/
def PwSim.createStereoLinks (sim : PwSim) (outputNode inputNode : Nat) :
    (Nat × Nat) × PwSim :=
  ((sim.nextId, sim.nextId + 1),
   { sim with
     linkRequests := sim.linkRequests ++
       [(outputNode, "monitor_FL", inputNode, "playback_FL"),
        (outputNode, "monitor_FR", inputNode, "playback_FR")]
     nextId := sim.nextId + 2 })

/-- Rust `str::strip_prefix("ut-ch-").unwrap_or(..)`. -/
def stripUtCh (s : String) : String :=
  if strStarts s "ut-ch-" then String.mk (s.data.drop 6) else s

/-- The per-node body of `create_channel_to_mix_links_with_filters`:
iterate `get_undertone_channels()` (channel sinks *and* volume filters,
since both names start with `ut-ch-`); a missing
`{base}-stream-vol`/`{base}-monitor-vol` registry entry aborts the whole
function with `NodeNotFound` via `?`. -/
def linkLoopSim : List NodeInfo → Nat → Nat → PwSim → List (String × Nat) →
    Except String (List (String × Nat)) × PwSim
  | [], _, _, sim, acc => (.ok acc, sim)
  | chNode :: rest, streamMixId, monitorMixId, sim, acc =>
    let baseName := stripUtCh chNode.name
    let svName := "ut-ch-" ++ baseName ++ "-stream-vol"
    match sim.graph.getCreatedNodeId svName with
    | none => (.error svName, sim)
    | some svId =>
      let mvName := "ut-ch-" ++ baseName ++ "-monitor-vol"
      match sim.graph.getCreatedNodeId mvName with
      | none => (.error mvName, sim)
      | some mvId =>
        let s1 := sim.createStereoLinks chNode.id svId
        let acc1 := acc ++ [(chNode.name ++ "->" ++ svName ++ ":FL", s1.1.1),
                            (chNode.name ++ "->" ++ svName ++ ":FR", s1.1.2)]
        let s2 := s1.2.createStereoLinks svId streamMixId
        let acc2 := acc1 ++ [(svName ++ "->stream-mix:FL", s2.1.1),
                             (svName ++ "->stream-mix:FR", s2.1.2)]
        let s3 := s2.2.createStereoLinks chNode.id mvId
        let acc3 := acc2 ++ [(chNode.name ++ "->" ++ mvName ++ ":FL", s3.1.1),
                             (chNode.name ++ "->" ++ mvName ++ ":FR", s3.1.2)]
        let s4 := s3.2.createStereoLinks mvId monitorMixId
        let acc4 := acc3 ++ [(mvName ++ "->monitor-mix:FL", s4.1.1),
                             (mvName ++ "->monitor-mix:FR", s4.1.2)]
        linkLoopSim rest streamMixId monitorMixId s4.2 acc4

/-- `create_channel_to_mix_links_with_filters`. -/
def createChannelToMixLinksSim (sim : PwSim) :
    Except String (List (String × Nat)) × PwSim :=
  match sim.graph.getCreatedNodeId "ut-stream-mix" with
  | none => (.error "ut-stream-mix", sim)
  | some streamMixId =>
    match sim.graph.getCreatedNodeId "ut-monitor-mix" with
    | none => (.error "ut-monitor-mix", sim)
    | some monitorMixId =>
      linkLoopSim (sim.graph.getUndertoneChannels) streamMixId monitorMixId sim []

/-- The cold-start node-creation sequence of `main.rs` (five default
channels): channel sinks, then mix nodes, then volume filters. -/
def coldStartPreLinks : PwSim :=
  createVolumeFiltersSim defaultChannelNames
    (createMixNodesSim (createChannelSinksSim defaultChannelNames {}))

/-- The full cold-start sequence of `main.rs` (five default channels,
no Wave:3 device): the node creations, then the channel-to-mix link
pass — on `Err` no created links are recorded — and the
monitor-to-headphones link step, skipped because `wave3-sink` is
absent from the cache. -/
def coldStart : PwSim :=
  let step := createChannelToMixLinksSim coldStartPreLinks
  match step.1 with
  | .ok created =>
    { step.2 with graph :=
        created.foldl (fun g p => g.recordCreatedLink p.1 p.2) step.2.graph }
  | .error _ => step.2

/-! ## Default data and concrete instances (used by counterexamples and
witnesses) -/

/-- `default_channels` from `channel.rs`. -/
def defaultChannelConfigs : List ChannelConfig :=
  [{ name := "system", displayName := "System", sortOrder := 0 },
   { name := "voice", displayName := "Voice", sortOrder := 1 },
   { name := "music", displayName := "Music", sortOrder := 2 },
   { name := "browser", displayName := "Browser", sortOrder := 3 },
   { name := "game", displayName := "Game", sortOrder := 4 }]

/-- `ChannelState::new` from `channel.rs`. -/
def ChannelState.new (c : ChannelConfig) : ChannelState :=
  { config := c }

/-- The five default channels in their initial state. -/
def defaultChannelStates : List ChannelState :=
  defaultChannelConfigs.map ChannelState.new

/-- The `music` channel configuration. -/
def musicCfg : ChannelConfig :=
  { name := "music", displayName := "Music", sortOrder := 2 }

/-- A cached Wave:3 sink node. -/
def wave3SinkNode : NodeInfo :=
  { id := 1, name := "wave3-sink", mediaClass := some "Audio/Sink" }

/-- A cache holding only the Wave:3 sink. -/
def wave3OnlyGraph : Graph :=
  { nodes := [wave3SinkNode] }

/-- A daemon context with the five default channels and a registered
`music` stream-volume filter node (id 7). -/
def musicCtx : DaemonCtx :=
  { channels := defaultChannelStates
    graph := { createdNodes := [("ut-ch-music-stream-vol", 7)] } }

/-- The rule of the router counterexample: an exact rule whose target
channel is `system`. -/
def systemTargetRule : RouteRule :=
  { pattern := "x", patternType := .exact, channel := "system", priority := 100 }

/-- The broken-regex rule of the spec's scenario 6. -/
def badRegexRule : RouteRule :=
  { pattern := "(unterminated", patternType := .regexMatch, channel := "game", priority := 100 }

/-- An exact rule routing `spotify` to `music`. -/
def spotifyRule : RouteRule :=
  { pattern := "spotify", patternType := .exact, channel := "music", priority := 100 }

/-- A cache holding every desired node for the single `music` channel
plus the Wave:3 sink, with no links yet. -/
def musicNodesGraph : Graph :=
  { nodes :=
      [{ id := 1, name := "ut-ch-music", mediaClass := some "Audio/Sink",
         isUndertoneManaged := true },
       { id := 2, name := "ut-ch-music-stream-vol", mediaClass := some "Audio/Sink",
         isUndertoneManaged := true },
       { id := 3, name := "ut-ch-music-monitor-vol", mediaClass := some "Audio/Sink",
         isUndertoneManaged := true },
       { id := 4, name := "ut-stream-mix", mediaClass := some "Audio/Sink",
         isUndertoneManaged := true },
       { id := 5, name := "ut-stream-out", mediaClass := some "Audio/Sink",
         isUndertoneManaged := true },
       { id := 6, name := "ut-monitor-mix", mediaClass := some "Audio/Sink",
         isUndertoneManaged := true },
       { id := 7, name := "wave3-sink", mediaClass := some "Audio/Sink" }] }

/-! ## General lemmas about the cache operations -/

/-- A node just inserted by id is found by id lookup. -/
theorem getNode_addNode (g : Graph) (n : NodeInfo) :
    (g.addNode n).getNode n.id = some n := by
  simp only [Graph.addNode, Graph.getNode, List.find?_append]
  have h : (g.nodes.filter (fun m => m.id != n.id)).find? (fun m => m.id == n.id) = none := by
    simp only [List.find?_eq_none]
    intro x hx
    have hne := (List.mem_filter.mp hx).2
    simp only [bne_iff_ne, ne_eq] at hne
    simp [hne]
  rw [h]
  simp [List.find?]

/-! ## Claim theorems -/

/-- Claim C3: evaluation of the modelled cold start (five default
channels, no target device, every factory request succeeding, cache
iteration in insertion order).  Exactly 17 nodes are created — 5
channel sinks, only 2 mix nodes (`ut-stream-mix`, `ut-monitor-mix`; no
stream-out node exists afterwards), 10 volume filters; the link pass
issues 40 link-factory requests (8 per channel) and then aborts with
`NodeNotFound("ut-ch-system-stream-vol-stream-vol")` because the volume
filters are themselves iterated as channels, so no created link is ever
recorded and no stream-mix → stream-out link is requested. -/
theorem c3_cold_start_eval :
    coldStart.graph.nodes.map (·.name) =
      ["ut-ch-system", "ut-ch-voice", "ut-ch-music", "ut-ch-browser", "ut-ch-game",
       "ut-stream-mix", "ut-monitor-mix",
       "ut-ch-system-stream-vol", "ut-ch-system-monitor-vol",
       "ut-ch-voice-stream-vol", "ut-ch-voice-monitor-vol",
       "ut-ch-music-stream-vol", "ut-ch-music-monitor-vol",
       "ut-ch-browser-stream-vol", "ut-ch-browser-monitor-vol",
       "ut-ch-game-stream-vol", "ut-ch-game-monitor-vol"] ∧
    coldStart.graph.getNodeByName "ut-stream-out" = none ∧
    (createChannelToMixLinksSim coldStartPreLinks).1 =
      Except.error "ut-ch-system-stream-vol-stream-vol" ∧
    coldStart.linkRequests.length = 40 ∧
    coldStart.graph.createdLinks = [] := by
  exact ⟨by decide, by decide, by decide, by decide, by decide⟩

/-- Claim C4: evaluation of `DeleteProfile` on the default profile.
The default profile "Default" is present, yet `handle_request` replies
`success = true` (not `false`), and the command arm is a TODO stub: the
profile list is untouched and no store delete is issued — so the
profile survives, but the caller is told the deletion succeeded rather
than receiving the `success = false` the spec requires. -/
theorem c4_delete_default_eval :
    (musicCtx.profiles.any (fun p => p.name == "Default" && p.isDefault)) = true ∧
    (processRequest (.deleteProfile "Default") musicCtx).1 =
      .ok (.successOnly true) ∧
    (processRequest (.deleteProfile "Default") musicCtx).2.profiles = musicCtx.profiles ∧
    (processRequest (.deleteProfile "Default") musicCtx).2.dbProfileDeletes = [] := by
  exact ⟨by decide, by decide, by decide, by decide⟩

/-- Claim C2, counterexample: a registry global-added of type Link is
*not* inserted into the cache's link map — handling it on the empty
runtime state sends `LinkCreated` but a subsequent cache lookup of the
link comes back empty. -/
theorem c2_link_not_cached_counterexample :
    (handleGlobal {} (.link 42 [("link.output.node", "1"), ("link.input.node", "2")])).1.graph.getLink 42
      = none ∧
    (handleGlobal {} (.link 42 [("link.output.node", "1"), ("link.input.node", "2")])).2
      = [.linkCreated 42 1 2] := by
  exact ⟨by decide, by decide⟩

/-- Claim C2, amended: a global-added Node is inserted into the cache
and announced with `NodeAdded`; a global-added Port is inserted into
the cache and announced with `PortAdded`; a global-added Link only
sends `LinkCreated` on the event channel — the runtime state (the link
map included) is left unchanged. -/
theorem c2_global_added_amended (st : RtState) (id : Nat) (props : List (String × String)) :
    ((handleGlobal st (.node id props)).1.graph.getNode id = some (nodeInfoOfProps id props) ∧
      GraphEvent.nodeAdded (nodeInfoOfProps id props) ∈ (handleGlobal st (.node id props)).2) ∧
    ((handleGlobal st (.port id props)).1.graph.ports =
        st.graph.ports.filter (fun q => q.id != id) ++ [portInfoOfProps id props] ∧
      (handleGlobal st (.port id props)).2 = [.portAdded (portInfoOfProps id props)]) ∧
    ((handleGlobal st (.link id props)).1 = st ∧
      (handleGlobal st (.link id props)).2 =
        [.linkCreated id (((propGet props "link.output.node").bind parseNat?).getD 0)
          (((propGet props "link.input.node").bind parseNat?).getD 0)]) := by
  refine ⟨⟨?_, ?_⟩, ⟨rfl, rfl⟩, rfl, rfl⟩
  · have h : (nodeInfoOfProps id props).id = id := rfl
    simpa [handleGlobal, h] using getNode_addNode st.graph (nodeInfoOfProps id props)
  · simp [handleGlobal]

/-- Claim C10: in `handle_global_remove`, a removed id absent from the
node-name map is reported as `LinkRemoved`; no emitted event is ever
`PortRemoved`; consequently the full registry-removal step leaves the
cache's port map untouched; and handling a Port global never registers
its id in the node-name map (so every previously added port falls into
the `LinkRemoved` case). -/
theorem c10_port_removal_as_link (st : RtState) (id : Nat) :
    (lookupNodesMap st.nodesMap id = none →
      (handleGlobalRemove st id).2 = [.linkRemoved id]) ∧
    (∀ e ∈ (handleGlobalRemove st id).2, e.isPortRemoved = false) ∧
    (registryRemoveStep st id).1.graph.ports = st.graph.ports ∧
    (∀ props, (handleGlobal st (.port id props)).1.nodesMap = st.nodesMap) := by
  refine ⟨?_, ?_, ?_, fun _ => rfl⟩
  · intro h
    simp [handleGlobalRemove, h]
  · intro e he
    unfold handleGlobalRemove at he
    cases h : lookupNodesMap st.nodesMap id with
    | none =>
      rw [h] at he
      simp at he
      simp [he, GraphEvent.isPortRemoved]
    | some name =>
      rw [h] at he
      by_cases hw : name == "wave3-source"
      · simp [hw] at he
        rcases he with he | he <;> simp [he, GraphEvent.isPortRemoved]
      · simp [hw] at he
        simp [he, GraphEvent.isPortRemoved]
  · unfold registryRemoveStep handleGlobalRemove
    cases h : lookupNodesMap st.nodesMap id with
    | none => simp [eventLoopCacheStep]
    | some name =>
      by_cases hw : name == "wave3-source" <;>
        simp [hw, eventLoopCacheStep, Graph.removeNode]

/-- Witness for C10: a concrete state in which id 7 is not in the
node-name map, so its removal is reported as `LinkRemoved 7`. -/
theorem c10_witness :
    lookupNodesMap ([(5, "node5")] : List (Nat × String)) 7 = none ∧
    (handleGlobalRemove { nodesMap := [(5, "node5")] } 7).2 = [.linkRemoved 7] :=
  ⟨by decide, (c10_port_removal_as_link { nodesMap := [(5, "node5")] } 7).1 (by decide)⟩

/-- `clamp01` never goes below 0. -/
theorem clamp01_nonneg (v : ℚ) : 0 ≤ clamp01 v := by
  unfold clamp01
  split_ifs <;> linarith

/-- `clamp01` never exceeds 1. -/
theorem clamp01_le_one (v : ℚ) : clamp01 v ≤ 1 := by
  unfold clamp01
  split_ifs <;> linarith

/-- `updateChannel` commutes with name lookup when the update preserves
the configuration. -/
theorem find?_updateChannel (cs : List ChannelState) (name : String)
    (f : ChannelState → ChannelState) (hf : ∀ c, (f c).config = c.config) :
    (updateChannel cs name f).find? (fun c => c.config.name == name) =
      (cs.find? (fun c => c.config.name == name)).map f := by
  induction cs with
  | nil => rfl
  | cons c rest ih =>
    by_cases h : c.config.name == name
    · simp [updateChannel, h, List.find?, hf c]
    · simp [updateChannel, h, List.find?, ih]

/-- `updateChannel` preserves the volume-range invariant when the
update keeps every channel's volumes in range. -/
theorem volumesOk_updateChannel (cs : List ChannelState) (name : String)
    (f : ChannelState → ChannelState) (h : volumesOk cs)
    (hf : ∀ c ∈ cs, 0 ≤ (f c).streamVolume ∧ (f c).streamVolume ≤ 1 ∧
      0 ≤ (f c).monitorVolume ∧ (f c).monitorVolume ≤ 1) :
    volumesOk (updateChannel cs name f) := by
  revert h hf
  induction cs with
  | nil => intro _ _ x hx; cases hx
  | cons c rest ih =>
    intro h hf x hx
    unfold updateChannel at hx
    by_cases hc : (c.config.name == name) = true
    · rw [if_pos hc] at hx
      rcases List.mem_cons.mp hx with hx | hx
      · exact hx ▸ hf c (List.mem_cons_self c rest)
      · exact h x (List.mem_cons_of_mem c hx)
    · rw [if_neg hc] at hx
      rcases List.mem_cons.mp hx with hx | hx
      · exact hx ▸ h c (List.mem_cons_self c rest)
      · exact ih (fun y hy => h y (List.mem_cons_of_mem c hy))
          (fun y hy => hf y (List.mem_cons_of_mem c hy)) x hx

/-- Claim C5, counterexample: processing a valid
`SetChannelVolume{music, stream, 1}` (the channel exists and the stream
volume filter is registered under id 7) issues the set-volume call on
the filter node, but writes nothing to the persistent store — and the
filter node is named `ut-ch-music-stream-vol`, not
`ch-music-stream-vol`. -/
theorem c5_no_store_write_counterexample :
    (processRequest (.setChannelVolume "music" .stream 1) musicCtx).2.dbChannelWrites = [] ∧
    (processRequest (.setChannelVolume "music" .stream 1) musicCtx).2.pwVolumeCalls
      = [(7, 1)] ∧
    filterNodeName "music" .stream = "ut-ch-music-stream-vol" := by
  exact ⟨by decide, by decide, by decide⟩

/-- Claim C5, amended: for every valid `SetChannelVolume` command
(channel exists), processing updates the in-memory channel state to the
clamped volume, answers success with the clamped volume, issues the
set-volume call on the `ut-ch-{channel}-{mix}-vol` filter node when it
is registered, and emits the volume-changed IPC event — but performs no
persistent-store write. -/
theorem c5_set_volume_amended (channel : String) (mix : MixType) (v : ℚ)
    (ctx : DaemonCtx) (hex : channelExists (snapshotOf ctx) channel = true) :
    (processRequest (.setChannelVolume channel mix v) ctx).1 =
      .ok (.successVolume true (clamp01 v)) ∧
    storedVolume (processRequest (.setChannelVolume channel mix v) ctx).2 channel mix
      = some (clamp01 v) ∧
    (processRequest (.setChannelVolume channel mix v) ctx).2.dbChannelWrites
      = ctx.dbChannelWrites ∧
    (∀ nodeId, ctx.graph.getCreatedNodeId (filterNodeName channel mix) = some nodeId →
      (processRequest (.setChannelVolume channel mix v) ctx).2.pwVolumeCalls
        = ctx.pwVolumeCalls ++ [(nodeId, clamp01 v)]) ∧
    (processRequest (.setChannelVolume channel mix v) ctx).2.ipcEvents
      = ctx.ipcEvents ++ [.channelVolumeChanged channel mix (clamp01 v)] := by
  have hany : ctx.channels.any (fun c => c.config.name == channel) = true := hex
  have hfind : ∃ c0, ctx.channels.find? (fun c => c.config.name == channel) = some c0 := by
    cases hf : ctx.channels.find? (fun c => c.config.name == channel) with
    | none =>
      rw [List.find?_eq_none] at hf
      rcases List.any_eq_true.mp hany with ⟨c, hc, hcn⟩
      exact absurd hcn (by simpa using hf c hc)
    | some c0 => exact ⟨c0, rfl⟩
  obtain ⟨c0, hc0⟩ := hfind
  set f : ChannelState → ChannelState := fun c =>
    match mix with
    | .stream => { c with streamVolume := clamp01 v }
    | .monitor => { c with monitorVolume := clamp01 v } with hfdef
  have hfconf : ∀ c, (f c).config = c.config := by
    intro c; cases mix <;> rfl
  refine ⟨?_, ?_, ?_, ?_, ?_⟩
  · simp [processRequest, handleRequest, hex]
  · have hupd : storedVolume (processRequest (.setChannelVolume channel mix v) ctx).2 channel mix
        = ((ctx.channels.find? (fun c => c.config.name == channel)).map f).map (fun c =>
            match mix with
            | MixType.stream => c.streamVolume
            | MixType.monitor => c.monitorVolume) := by
      simp only [processRequest, handleRequest, hex, Bool.not_true, Bool.false_eq_true,
        if_false, storedVolume, applyCommand, hany, if_true]
      rw [← find?_updateChannel ctx.channels channel f hfconf]
      cases mix <;> rfl
    rw [hupd, hc0]
    cases mix <;> rfl
  · simp [processRequest, handleRequest, hex, applyCommand, hany]
  · intro nodeId hnode
    simp [processRequest, handleRequest, hex, applyCommand, hany, hnode]
  · simp [processRequest, handleRequest, hex, applyCommand, hany]

/-- Witness for C5: the `music` channel exists in `musicCtx`; setting
its stream volume to 2 stores and answers the clamped volume 1, while
the store-write log stays empty. -/
theorem c5_witness :
    channelExists (snapshotOf musicCtx) "music" = true ∧
    (processRequest (.setChannelVolume "music" .stream 2) musicCtx).1 =
      .ok (.successVolume true 1) ∧
    (processRequest (.setChannelVolume "music" .stream 2) musicCtx).2.dbChannelWrites
      = musicCtx.dbChannelWrites := by
  have h := c5_set_volume_amended "music" .stream 2 musicCtx (by decide)
  have hc : clamp01 (2 : ℚ) = 1 := by decide
  exact ⟨by decide, by rw [h.1, hc], h.2.2.1⟩

/-- Claim C6: processing any IPC request preserves the invariant that
every stored channel volume lies in [0, 1]; and a valid
`SetChannelVolume` request with volume `v` stores `clamp(v, 0, 1)` and
answers with the clamped value, not `v`. -/
theorem c6_volumes_clamped (m : Method) (ctx : DaemonCtx)
    (hv : volumesOk ctx.channels) :
    volumesOk ((processRequest m ctx).2.channels) ∧
    (∀ channel mix v, m = .setChannelVolume channel mix v →
      channelExists (snapshotOf ctx) channel = true →
      (processRequest m ctx).1 = .ok (.successVolume true (clamp01 v)) ∧
      storedVolume (processRequest m ctx).2 channel mix = some (clamp01 v)) := by
  cases m with
  | getChannel name =>
    refine ⟨?_, by intro _ _ _ h; cases h⟩
    have : (processRequest (.getChannel name) ctx).2 = ctx := by
      simp only [processRequest, handleRequest]
      cases hf : (snapshotOf ctx).channels.find? (fun c => c.config.name == name) <;>
        simp [hf]
    rw [this]; exact hv
  | getProfile name =>
    refine ⟨?_, by intro _ _ _ h; cases h⟩
    have : (processRequest (.getProfile name) ctx).2 = ctx := by
      simp only [processRequest, handleRequest]
      cases hf : (snapshotOf ctx).profiles.find? (fun p => p.name == name) <;>
        simp [hf]
    rw [this]; exact hv
  | setChannelVolume channel mix v =>
    constructor
    · by_cases hex : channelExists (snapshotOf ctx) channel
      · have hany : ctx.channels.any (fun c => c.config.name == channel) = true := hex
        simp only [processRequest, handleRequest, hex, Bool.not_true, Bool.false_eq_true,
          if_false, applyCommand, hany, if_true]
        refine volumesOk_updateChannel _ _ _ hv ?_
        intro c hc
        cases mix
        · exact ⟨clamp01_nonneg v, clamp01_le_one v, (hv c hc).2.2.1, (hv c hc).2.2.2⟩
        · exact ⟨(hv c hc).1, (hv c hc).2.1, clamp01_nonneg v, clamp01_le_one v⟩
      · simp only [processRequest, handleRequest, hex, Bool.not_false, if_true,
          channelNotFound]
        exact hv
    · intro channel' mix' v' heq hex
      injection heq with h1 h2 h3
      subst h1; subst h2; subst h3
      have h := c5_set_volume_amended channel mix v ctx hex
      exact ⟨h.1, h.2.1⟩
  | setChannelMute channel mix muted =>
    refine ⟨?_, by intro _ _ _ h; cases h⟩
    by_cases hex : channelExists (snapshotOf ctx) channel
    · have hany : ctx.channels.any (fun c => c.config.name == channel) = true := hex
      simp only [processRequest, handleRequest, hex, Bool.not_true, Bool.false_eq_true,
        if_false, applyCommand, hany, if_true]
      refine volumesOk_updateChannel _ _ _ hv ?_
      intro c hc
      cases mix
      · exact ⟨(hv c hc).1, (hv c hc).2.1, (hv c hc).2.2.1, (hv c hc).2.2.2⟩
      · exact ⟨(hv c hc).1, (hv c hc).2.1, (hv c hc).2.2.1, (hv c hc).2.2.2⟩
    · simp only [processRequest, handleRequest, hex, Bool.not_false, if_true,
        channelNotFound]
      exact hv
  | setAppRoute appPattern channel =>
    refine ⟨?_, by intro _ _ _ h; cases h⟩
    by_cases hex : channelExists (snapshotOf ctx) channel
    · simpa [processRequest, handleRequest, hex, applyCommand] using hv
    · simpa [processRequest, handleRequest, hex, channelNotFound] using hv
  | getState => exact ⟨hv, by intro _ _ _ h; cases h⟩
  | getChannels => exact ⟨hv, by intro _ _ _ h; cases h⟩
  | getApps => exact ⟨hv, by intro _ _ _ h; cases h⟩
  | getProfiles => exact ⟨hv, by intro _ _ _ h; cases h⟩
  | getDeviceStatus => exact ⟨hv, by intro _ _ _ h; cases h⟩
  | getDiagnostics => exact ⟨hv, by intro _ _ _ h; cases h⟩
  | removeAppRoute appPattern =>
    exact ⟨by simpa [processRequest, handleRequest, applyCommand] using hv,
      by intro _ _ _ h; cases h⟩
  | saveProfile name =>
    exact ⟨by simpa [processRequest, handleRequest, applyCommand] using hv,
      by intro _ _ _ h; cases h⟩
  | loadProfile name =>
    exact ⟨by simpa [processRequest, handleRequest, applyCommand] using hv,
      by intro _ _ _ h; cases h⟩
  | deleteProfile name =>
    exact ⟨by simpa [processRequest, handleRequest, applyCommand] using hv,
      by intro _ _ _ h; cases h⟩
  | setMicGain gain =>
    exact ⟨by simpa [processRequest, handleRequest, applyCommand] using hv,
      by intro _ _ _ h; cases h⟩
  | setMicMute muted =>
    exact ⟨by simpa [processRequest, handleRequest, applyCommand] using hv,
      by intro _ _ _ h; cases h⟩
  | getOutputDevices => exact ⟨hv, by intro _ _ _ h; cases h⟩
  | subscribeEvents events => exact ⟨hv, by intro _ _ _ h; cases h⟩
  | unsubscribeEvents events => exact ⟨hv, by intro _ _ _ h; cases h⟩
  | shutdownReq =>
    exact ⟨by simpa [processRequest, handleRequest, applyCommand] using hv,
      by intro _ _ _ h; cases h⟩
  | reconcileReq =>
    exact ⟨by simpa [processRequest, handleRequest, applyCommand] using hv,
      by intro _ _ _ h; cases h⟩

/-- Witness for C6: on the default channels (volumes in range), setting
the music stream volume to the out-of-range 2 keeps every volume in
range and answers the clamped value 1. -/
theorem c6_witness :
    volumesOk musicCtx.channels ∧
    volumesOk ((processRequest (.setChannelVolume "music" .stream 2) musicCtx).2.channels) ∧
    (processRequest (.setChannelVolume "music" .stream 2) musicCtx).1 =
      .ok (.successVolume true 1) := by
  have h := c6_volumes_clamped (.setChannelVolume "music" .stream 2) musicCtx (by decide)
  have hc : clamp01 (2 : ℚ) = 1 := by decide
  refine ⟨by decide, h.1, ?_⟩
  rw [(h.2 "music" .stream 2 rfl (by decide)).1, hc]

/-- A sequence of `matches` calls on a failing regex rule whose cache is
already initialised: every result is a no-match and no further warning
is emitted. -/
theorem runMatches_cached_failure (eng : RegexEngine) (r : RouteRule)
    (hty : r.patternType = .regexMatch) (inputs : List String) :
    (runMatches eng r (some false) inputs).1 = inputs.map (fun _ => false) ∧
    (runMatches eng r (some false) inputs).2 = (some false, 0) := by
  induction inputs with
  | nil => exact ⟨rfl, rfl⟩
  | cons s rest ih =>
    have hstep : matchesOnce eng r (some false) s = (false, some false, 0) := by
      simp [matchesOnce, hty]
    refine ⟨?_, ?_⟩
    · simp only [runMatches, hstep]
      exact congrArg _ ih.1
    · simp only [runMatches, hstep]
      simp [ih.2]

/-- Claim C9: a regex rule whose pattern fails to compile never fails
fatally — it evaluates to no-match on every input; over any sequence of
`matches` calls from the fresh state the compile warning is emitted
exactly once (zero times if never consulted); and routing with only
such a rule present yields `system` for every input. -/
theorem c9_bad_regex_never_fatal (eng : RegexEngine) (r : RouteRule) (inputs : List String)
    (hty : r.patternType = .regexMatch) (hc : eng.compiles r.pattern = false) :
    (∀ s, ruleMatches eng r s = false) ∧
    (runMatches eng r none inputs).1 = inputs.map (fun _ => false) ∧
    (runMatches eng r none inputs).2.2 = (if inputs.isEmpty then 0 else 1) ∧
    (∀ s, findChannelForApp eng s none [r] = "system") := by
  refine ⟨?_, ?_, ?_, ?_⟩
  · intro s
    simp [ruleMatches, hty, hc]
  · cases inputs with
    | nil => rfl
    | cons s rest =>
      have hstep : matchesOnce eng r none s = (false, some false, 1) := by
        simp [matchesOnce, hty, hc]
      simp only [runMatches, hstep, List.map_cons]
      exact congrArg _ (runMatches_cached_failure eng r hty rest).1
  · cases inputs with
    | nil => rfl
    | cons s rest =>
      have hstep : matchesOnce eng r none s = (false, some false, 1) := by
        simp [matchesOnce, hty, hc]
      simp only [runMatches, hstep, List.isEmpty_cons, if_false]
      have := (runMatches_cached_failure eng r hty rest).2
      simp [this]
  · intro s
    have hm : ruleMatches eng r s = false := by simp [ruleMatches, hty, hc]
    simp [findChannelForApp, List.mergeSort, hm]

/-- Witness for C9: the rule with pattern `(unterminated` under the
concrete engine model: both calls return no-match, exactly one warning
is logged, and `route("anything")` returns `system`. -/
theorem c9_witness :
    badRegexRule.patternType = .regexMatch ∧
    modelEngine.compiles badRegexRule.pattern = false ∧
    (runMatches modelEngine badRegexRule none ["anything", "spotify"]).1 = [false, false] ∧
    (runMatches modelEngine badRegexRule none ["anything", "spotify"]).2.2 = 1 ∧
    findChannelForApp modelEngine "anything" none [badRegexRule] = "system" := by
  have h := c9_bad_regex_never_fatal modelEngine badRegexRule ["anything", "spotify"]
    rfl (by decide)
  exact ⟨rfl, by decide, by rw [h.2.1]; rfl, by rw [h.2.2.1]; rfl, h.2.2.2 "anything"⟩

/-- Claim C7, counterexample: a matching rule whose target channel is
`system` makes the router return `system` even though a rule matched,
refuting the claimed "returns system iff no rule matched". -/
theorem c7_system_target_counterexample :
    findChannelForApp modelEngine "x" none [systemTargetRule] = "system" ∧
    ruleMatches modelEngine systemTargetRule "x" = true := by
  constructor
  · simp only [findChannelForApp, List.mergeSort_singleton]
    decide
  · decide

/-- Claim C7, amended: the router equals the spec-side scan of the
rules ordered by priority descending with ties broken by insertion
order (app name first, binary name only if the app name matched no
rule); if no rule matches either name it returns `system`; and the
converse — `system` implies no rule matched — holds provided no rule's
target channel is itself named `system`.  (The input rule list is
untouched: the Rust function sorts a separate vector of references.) -/
theorem c7_router_order_amended (eng : RegexEngine) (appName : String)
    (binaryName : Option String) (rules : List RouteRule) :
    findChannelForApp eng appName binaryName rules = routeSpec eng appName binaryName rules ∧
    (rules.all (fun r => !ruleMatches eng r appName) = true →
      (∀ bin, binaryName = some bin → rules.all (fun r => !ruleMatches eng r bin) = true) →
      findChannelForApp eng appName binaryName rules = "system") ∧
    (findChannelForApp eng appName binaryName rules = "system" →
      (∀ r ∈ rules, r.channel ≠ "system") →
      rules.all (fun r => !ruleMatches eng r appName) = true ∧
      (∀ bin, binaryName = some bin → rules.all (fun r => !ruleMatches eng r bin) = true)) := by
  have hord : specOrdered rules = rules.mergeSort prioDesc := List.mergeSort_enum
  have hnone : ∀ (s : String), rules.all (fun r => !ruleMatches eng r s) = true →
      (rules.mergeSort prioDesc).find? (fun r => ruleMatches eng r s) = none := by
    intro s hall
    rw [List.find?_eq_none]
    intro x hx
    have hxr : x ∈ rules := List.mem_mergeSort.mp hx
    have := List.all_eq_true.mp hall x hxr
    simp only [Bool.not_eq_true'] at this
    simp [this]
  have hall_of_none : ∀ (s : String),
      (rules.mergeSort prioDesc).find? (fun r => ruleMatches eng r s) = none →
      rules.all (fun r => !ruleMatches eng r s) = true := by
    intro s hnf
    rw [List.find?_eq_none] at hnf
    rw [List.all_eq_true]
    intro x hx
    have := hnf x (List.mem_mergeSort.mpr hx)
    simp only [Bool.not_eq_true] at this
    simp [this]
  refine ⟨?_, ?_, ?_⟩
  · simp only [findChannelForApp, routeSpec, hord]
  · intro h1 h2
    simp only [findChannelForApp]
    rw [hnone appName h1]
    cases binaryName with
    | none => rfl
    | some bin => simp [hnone bin (h2 bin rfl)]
  · intro hsys hchan
    simp only [findChannelForApp] at hsys
    cases hf : (rules.mergeSort prioDesc).find? (fun r => ruleMatches eng r appName) with
    | some r =>
      rw [hf] at hsys
      simp only at hsys
      exact absurd hsys (hchan r (List.mem_mergeSort.mp (List.mem_of_find?_eq_some hf)))
    | none =>
      refine ⟨hall_of_none appName hf, ?_⟩
      intro bin hbin
      subst hbin
      rw [hf] at hsys
      simp only at hsys
      cases hf2 : (rules.mergeSort prioDesc).find? (fun r => ruleMatches eng r bin) with
      | some r =>
        rw [hf2] at hsys
        simp only at hsys
        exact absurd hsys (hchan r (List.mem_mergeSort.mp (List.mem_of_find?_eq_some hf2)))
      | none => exact hall_of_none bin hf2

/-- Witness for C7: no rule matches `unknown`, so routing falls through
to `system`. -/
theorem c7_witness :
    ([spotifyRule].all (fun r => !ruleMatches modelEngine r "unknown")) = true ∧
    findChannelForApp modelEngine "unknown" none [spotifyRule] = "system" :=
  ⟨by decide,
   (c7_router_order_amended modelEngine "unknown" none [spotifyRule]).2.1 (by decide)
     (fun bin h => nomatch h)⟩

/-! ## Segment lemmas for the reconciler -/

/-- A channel with a missing sink node contributes its `CreateSink`. -/
theorem channelSinkActs_mem {channels : List ChannelConfig} {g : Graph} {ch : ChannelConfig}
    (hch : ch ∈ channels) (hmiss : (g.getNodeByName ch.nodeName).isNone) :
    ReconcileAction.createSink (VirtualSinkProps.stereo ch.nodeName
      ("Undertone: " ++ ch.displayName ++ " Channel")) ∈ channelSinkActs channels g := by
  induction channels with
  | nil => cases hch
  | cons c rest ih =>
    rcases List.mem_cons.mp hch with h | h
    · subst h
      simp [channelSinkActs, hmiss]
    · exact List.mem_append_right _ (ih h)

/-- A missing required mix contributes its `CreateSink`. -/
theorem mixSinkActs_mem {l : List (String × String)} {g : Graph} {nd : String × String}
    (hnd : nd ∈ l) (hmiss : (g.getNodeByName nd.1).isNone) :
    ReconcileAction.createSink (VirtualSinkProps.stereo nd.1 nd.2) ∈ mixSinkActs l g := by
  induction l with
  | nil => cases hnd
  | cons c rest ih =>
    rcases List.mem_cons.mp hnd with h | h
    · subst h
      simp [mixSinkActs, hmiss]
    · exact List.mem_append_right _ (ih h)

/-- A channel with a missing stream-volume filter contributes its
`CreateSink`. -/
theorem filterSinkActs_mem_stream {channels : List ChannelConfig} {g : Graph}
    {ch : ChannelConfig} (hch : ch ∈ channels)
    (hmiss : (g.getNodeByName ch.streamVolName).isNone) :
    ReconcileAction.createSink (VirtualSinkProps.stereo ch.streamVolName
      ("Undertone: " ++ ch.displayName ++ " Stream Volume")) ∈ filterSinkActs channels g := by
  induction channels with
  | nil => cases hch
  | cons c rest ih =>
    rcases List.mem_cons.mp hch with h | h
    · subst h
      refine List.mem_append_left _ (List.mem_append_left _ ?_)
      simp [hmiss]
    · rw [filterSinkActs, List.append_assoc]
      exact List.mem_append_right _ (List.mem_append_right _ (ih h))

/-- A channel with a missing monitor-volume filter contributes its
`CreateSink`. -/
theorem filterSinkActs_mem_monitor {channels : List ChannelConfig} {g : Graph}
    {ch : ChannelConfig} (hch : ch ∈ channels)
    (hmiss : (g.getNodeByName ch.monitorVolName).isNone) :
    ReconcileAction.createSink (VirtualSinkProps.stereo ch.monitorVolName
      ("Undertone: " ++ ch.displayName ++ " Monitor Volume")) ∈ filterSinkActs channels g := by
  induction channels with
  | nil => cases hch
  | cons c rest ih =>
    rcases List.mem_cons.mp hch with h | h
    · subst h
      refine List.mem_append_left _ (List.mem_append_right _ ?_)
      simp [hmiss]
    · rw [filterSinkActs, List.append_assoc]
      exact List.mem_append_right _ (List.mem_append_right _ (ih h))

/-- The stream-filter link pair when both endpoints are cached without
a link. -/
theorem streamVolLinkActs_eq {ch : ChannelConfig} {g : Graph} {v m : NodeInfo}
    (hv : g.getNodeByName ch.streamVolName = some v)
    (hm : g.getNodeByName "ut-stream-mix" = some m)
    (hl : g.hasLink v.id m.id = false) :
    streamVolLinkActs ch g =
      [ReconcileAction.createLink ch.streamVolName "monitor_FL" "ut-stream-mix" "playback_FL",
       ReconcileAction.createLink ch.streamVolName "monitor_FR" "ut-stream-mix" "playback_FR"] := by
  simp [streamVolLinkActs, hv, hm, hl]

/-- The stream-filter link block is empty once the link is cached. -/
theorem streamVolLinkActs_nil {ch : ChannelConfig} {g : Graph} {v m : NodeInfo}
    (hv : g.getNodeByName ch.streamVolName = some v)
    (hm : g.getNodeByName "ut-stream-mix" = some m)
    (hl : g.hasLink v.id m.id = true) :
    streamVolLinkActs ch g = [] := by
  simp [streamVolLinkActs, hv, hm, hl]

/-- The monitor-filter link pair when both endpoints are cached without
a link. -/
theorem monitorVolLinkActs_eq {ch : ChannelConfig} {g : Graph} {v m : NodeInfo}
    (hv : g.getNodeByName ch.monitorVolName = some v)
    (hm : g.getNodeByName "ut-monitor-mix" = some m)
    (hl : g.hasLink v.id m.id = false) :
    monitorVolLinkActs ch g =
      [ReconcileAction.createLink ch.monitorVolName "monitor_FL" "ut-monitor-mix" "playback_FL",
       ReconcileAction.createLink ch.monitorVolName "monitor_FR" "ut-monitor-mix" "playback_FR"] := by
  simp [monitorVolLinkActs, hv, hm, hl]

/-- The monitor-filter link block is empty once the link is cached. -/
theorem monitorVolLinkActs_nil {ch : ChannelConfig} {g : Graph} {v m : NodeInfo}
    (hv : g.getNodeByName ch.monitorVolName = some v)
    (hm : g.getNodeByName "ut-monitor-mix" = some m)
    (hl : g.hasLink v.id m.id = true) :
    monitorVolLinkActs ch g = [] := by
  simp [monitorVolLinkActs, hv, hm, hl]

/-- Per-channel link blocks embed into the channel-link segment. -/
theorem channelLinkActs_mem {channels : List ChannelConfig} {g : Graph} {ch : ChannelConfig}
    (hch : ch ∈ channels) {a : ReconcileAction}
    (ha : a ∈ streamVolLinkActs ch g ∨ a ∈ monitorVolLinkActs ch g) :
    a ∈ channelLinkActs channels g := by
  induction channels with
  | nil => cases hch
  | cons c rest ih =>
    rcases List.mem_cons.mp hch with h | h
    · subst h
      rw [channelLinkActs, List.append_assoc]
      rcases ha with ha | ha
      · exact List.mem_append_left _ ha
      · exact List.mem_append_right _ (List.mem_append_left _ ha)
    · rw [channelLinkActs, List.append_assoc]
      exact List.mem_append_right _ (List.mem_append_right _ (ih h))

/-- Everything in the channel-sink segment is a `CreateSink`. -/
theorem channelSinkActs_all_sink {channels : List ChannelConfig} {g : Graph}
    {a : ReconcileAction} (ha : a ∈ channelSinkActs channels g) :
    a.isCreateSink = true := by
  induction channels with
  | nil => cases ha
  | cons c rest ih =>
    rw [channelSinkActs] at ha
    rcases List.mem_append.mp ha with h | h
    · by_cases hc : (g.getNodeByName c.nodeName).isNone = true
      · rw [if_pos hc] at h
        rcases List.mem_cons.mp h with h | h
        · subst h; rfl
        · cases h
      · rw [if_neg hc] at h; cases h
    · exact ih h

/-- Everything in the mix-sink segment is a `CreateSink`. -/
theorem mixSinkActs_all_sink {l : List (String × String)} {g : Graph}
    {a : ReconcileAction} (ha : a ∈ mixSinkActs l g) :
    a.isCreateSink = true := by
  induction l with
  | nil => cases ha
  | cons c rest ih =>
    rw [mixSinkActs] at ha
    rcases List.mem_append.mp ha with h | h
    · by_cases hc : (g.getNodeByName c.1).isNone = true
      · rw [if_pos hc] at h
        rcases List.mem_cons.mp h with h | h
        · subst h; rfl
        · cases h
      · rw [if_neg hc] at h; cases h
    · exact ih h

/-- Everything in the filter-sink segment is a `CreateSink`. -/
theorem filterSinkActs_all_sink {channels : List ChannelConfig} {g : Graph}
    {a : ReconcileAction} (ha : a ∈ filterSinkActs channels g) :
    a.isCreateSink = true := by
  induction channels with
  | nil => cases ha
  | cons c rest ih =>
    rw [filterSinkActs, List.append_assoc] at ha
    rcases List.mem_append.mp ha with h | h
    · by_cases hc : (g.getNodeByName c.streamVolName).isNone = true
      · rw [if_pos hc] at h
        rcases List.mem_cons.mp h with h | h
        · subst h; rfl
        · cases h
      · rw [if_neg hc] at h; cases h
    · rcases List.mem_append.mp h with h | h
      · by_cases hc : (g.getNodeByName c.monitorVolName).isNone = true
        · rw [if_pos hc] at h
          rcases List.mem_cons.mp h with h | h
          · subst h; rfl
          · cases h
        · rw [if_neg hc] at h; cases h
      · exact ih h

/-- Everything in the warn segment is the device-absent warning. -/
theorem wave3WarnActs_all_warn {g : Graph} {a : ReconcileAction}
    (ha : a ∈ wave3WarnActs g) :
    a = .warn "Wave:3 sink not found - device may be disconnected" := by
  unfold wave3WarnActs at ha
  by_cases hc : (g.findWave3Sink).isNone = true
  · rw [if_pos hc] at ha
    rcases List.mem_cons.mp ha with h | h
    · exact h
    · cases h
  · rw [if_neg hc] at ha; cases ha

/-- Everything in a stream-filter link block is a `CreateLink` out of
the channel's stream filter into the stream mix. -/
theorem streamVolLinkActs_shape {ch : ChannelConfig} {g : Graph} {a : ReconcileAction}
    (ha : a ∈ streamVolLinkActs ch g) :
    a = .createLink ch.streamVolName "monitor_FL" "ut-stream-mix" "playback_FL" ∨
    a = .createLink ch.streamVolName "monitor_FR" "ut-stream-mix" "playback_FR" := by
  cases hv : g.getNodeByName ch.streamVolName with
  | none =>
    have h0 : streamVolLinkActs ch g = [] := by simp [streamVolLinkActs, hv]
    rw [h0] at ha; cases ha
  | some v =>
    cases hm : g.getNodeByName "ut-stream-mix" with
    | none =>
      have h0 : streamVolLinkActs ch g = [] := by simp [streamVolLinkActs, hv, hm]
      rw [h0] at ha; cases ha
    | some m =>
      by_cases hl : g.hasLink v.id m.id = true
      · rw [streamVolLinkActs_nil hv hm hl] at ha; cases ha
      · rw [streamVolLinkActs_eq hv hm (Bool.eq_false_iff.mpr hl)] at ha
        rcases List.mem_cons.mp ha with h | h
        · exact Or.inl h
        · rcases List.mem_cons.mp h with h | h
          · exact Or.inr h
          · cases h

/-- Everything in a monitor-filter link block is a `CreateLink` out of
the channel's monitor filter into the monitor mix. -/
theorem monitorVolLinkActs_shape {ch : ChannelConfig} {g : Graph} {a : ReconcileAction}
    (ha : a ∈ monitorVolLinkActs ch g) :
    a = .createLink ch.monitorVolName "monitor_FL" "ut-monitor-mix" "playback_FL" ∨
    a = .createLink ch.monitorVolName "monitor_FR" "ut-monitor-mix" "playback_FR" := by
  cases hv : g.getNodeByName ch.monitorVolName with
  | none =>
    have h0 : monitorVolLinkActs ch g = [] := by simp [monitorVolLinkActs, hv]
    rw [h0] at ha; cases ha
  | some v =>
    cases hm : g.getNodeByName "ut-monitor-mix" with
    | none =>
      have h0 : monitorVolLinkActs ch g = [] := by simp [monitorVolLinkActs, hv, hm]
      rw [h0] at ha; cases ha
    | some m =>
      by_cases hl : g.hasLink v.id m.id = true
      · rw [monitorVolLinkActs_nil hv hm hl] at ha; cases ha
      · rw [monitorVolLinkActs_eq hv hm (Bool.eq_false_iff.mpr hl)] at ha
        rcases List.mem_cons.mp ha with h | h
        · exact Or.inl h
        · rcases List.mem_cons.mp h with h | h
          · exact Or.inr h
          · cases h

/-- Everything in the channel-link segment comes from some channel's
stream or monitor block. -/
theorem channelLinkActs_sound {channels : List ChannelConfig} {g : Graph}
    {a : ReconcileAction} (ha : a ∈ channelLinkActs channels g) :
    ∃ ch ∈ channels, a ∈ streamVolLinkActs ch g ∨ a ∈ monitorVolLinkActs ch g := by
  induction channels with
  | nil => cases ha
  | cons c rest ih =>
    rw [channelLinkActs, List.append_assoc] at ha
    rcases List.mem_append.mp ha with h | h
    · exact ⟨c, List.mem_cons_self c rest, Or.inl h⟩
    · rcases List.mem_append.mp h with h | h
      · exact ⟨c, List.mem_cons_self c rest, Or.inr h⟩
      · obtain ⟨ch, hch, hmem⟩ := ih h
        exact ⟨ch, List.mem_cons_of_mem c hch, hmem⟩

/-- Everything in the stream-out link segment is one of the two
stream-mix → stream-out links. -/
theorem streamOutLinkActs_shape {g : Graph} {a : ReconcileAction}
    (ha : a ∈ streamOutLinkActs g) :
    a = .createLink "ut-stream-mix" "monitor_FL" "ut-stream-out" "playback_FL" ∨
    a = .createLink "ut-stream-mix" "monitor_FR" "ut-stream-out" "playback_FR" := by
  cases hv : g.getNodeByName "ut-stream-mix" with
  | none =>
    have h0 : streamOutLinkActs g = [] := by simp [streamOutLinkActs, hv]
    rw [h0] at ha; cases ha
  | some v =>
    cases hm : g.getNodeByName "ut-stream-out" with
    | none =>
      have h0 : streamOutLinkActs g = [] := by simp [streamOutLinkActs, hv, hm]
      rw [h0] at ha; cases ha
    | some m =>
      by_cases hl : g.hasLink v.id m.id = true
      · have h0 : streamOutLinkActs g = [] := by simp [streamOutLinkActs, hv, hm, hl]
        rw [h0] at ha; cases ha
      · have hl2 : g.hasLink v.id m.id = false := Bool.eq_false_iff.mpr hl
        have h0 : streamOutLinkActs g =
            [ReconcileAction.createLink "ut-stream-mix" "monitor_FL" "ut-stream-out" "playback_FL",
             ReconcileAction.createLink "ut-stream-mix" "monitor_FR" "ut-stream-out" "playback_FR"] := by
          simp [streamOutLinkActs, hv, hm, hl2]
        rw [h0] at ha
        rcases List.mem_cons.mp ha with h | h
        · exact Or.inl h
        · rcases List.mem_cons.mp h with h | h
          · exact Or.inr h
          · cases h

/-- Everything in the Wave:3 link segment is a `CreateLink` out of the
monitor mix into the device sink. -/
theorem wave3LinkActs_shape {g : Graph} {a : ReconcileAction}
    (ha : a ∈ wave3LinkActs g) :
    ∃ w, g.findWave3Sink = some w ∧
      (a = .createLink "ut-monitor-mix" "monitor_FL" w.name "playback_FL" ∨
       a = .createLink "ut-monitor-mix" "monitor_FR" w.name "playback_FR") := by
  cases hv : g.getNodeByName "ut-monitor-mix" with
  | none =>
    have h0 : wave3LinkActs g = [] := by simp [wave3LinkActs, hv]
    rw [h0] at ha; cases ha
  | some v =>
    cases hm : g.findWave3Sink with
    | none =>
      have h0 : wave3LinkActs g = [] := by simp [wave3LinkActs, hv, hm]
      rw [h0] at ha; cases ha
    | some w =>
      by_cases hl : g.hasLink v.id w.id = true
      · have h0 : wave3LinkActs g = [] := by simp [wave3LinkActs, hv, hm, hl]
        rw [h0] at ha; cases ha
      · have hl2 : g.hasLink v.id w.id = false := Bool.eq_false_iff.mpr hl
        have h0 : wave3LinkActs g =
            [ReconcileAction.createLink "ut-monitor-mix" "monitor_FL" w.name "playback_FL",
             ReconcileAction.createLink "ut-monitor-mix" "monitor_FR" w.name "playback_FR"] := by
          simp [wave3LinkActs, hv, hm, hl2]
        rw [h0] at ha
        rcases List.mem_cons.mp ha with h | h
        · exact ⟨w, rfl, Or.inl h⟩
        · rcases List.mem_cons.mp h with h | h
          · exact ⟨w, rfl, Or.inr h⟩
          · cases h

/-- Claim C1, counterexample: with the single desired channel `music`
and an empty cache, every desired link — the channel-sink →
stream-volume-filter and channel-sink → monitor-volume-filter stereo
links included — is missing (the cache has no links at all), repairs
are needed (the output is non-empty), yet the output contains no
`CreateLink` action whatsoever. -/
theorem c1_no_sink_to_filter_links_counterexample :
    Graph.empty.links = [] ∧
    reconcile [musicCfg] Graph.empty ≠ [] ∧
    (reconcile [musicCfg] Graph.empty).filter (fun a => a.isCreateLink) = [] := by
  exact ⟨rfl, by decide, by decide⟩

/-- Claim C1, amended: the Reconciler emits a `CreateSink` for every
desired node missing from the cache (channel sinks, the three mix
nodes, both volume filters per channel); it emits the stereo
`CreateLink` pairs for the volume-filter → mix, stream-mix →
stream-out and monitor-mix → device families whenever both endpoints
are cached without a link between them; every `CreateLink` it emits
originates from a volume filter or a mix node — never from a channel
sink, so the channel-sink → volume-filter links of the spec topology
are never emitted; and every `CreateSink` precedes every `CreateLink`. -/
theorem c1_reconcile_repairs_amended (channels : List ChannelConfig) (g : Graph) :
    (∀ ch ∈ channels, (g.getNodeByName ch.nodeName).isNone →
      ReconcileAction.createSink (VirtualSinkProps.stereo ch.nodeName
        ("Undertone: " ++ ch.displayName ++ " Channel")) ∈ reconcile channels g) ∧
    (∀ nd ∈ requiredMixes, (g.getNodeByName nd.1).isNone →
      ReconcileAction.createSink (VirtualSinkProps.stereo nd.1 nd.2) ∈ reconcile channels g) ∧
    (∀ ch ∈ channels, (g.getNodeByName ch.streamVolName).isNone →
      ReconcileAction.createSink (VirtualSinkProps.stereo ch.streamVolName
        ("Undertone: " ++ ch.displayName ++ " Stream Volume")) ∈ reconcile channels g) ∧
    (∀ ch ∈ channels, (g.getNodeByName ch.monitorVolName).isNone →
      ReconcileAction.createSink (VirtualSinkProps.stereo ch.monitorVolName
        ("Undertone: " ++ ch.displayName ++ " Monitor Volume")) ∈ reconcile channels g) ∧
    (∀ ch ∈ channels, ∀ v m, g.getNodeByName ch.streamVolName = some v →
      g.getNodeByName "ut-stream-mix" = some m → g.hasLink v.id m.id = false →
      ReconcileAction.createLink ch.streamVolName "monitor_FL" "ut-stream-mix" "playback_FL"
        ∈ reconcile channels g ∧
      ReconcileAction.createLink ch.streamVolName "monitor_FR" "ut-stream-mix" "playback_FR"
        ∈ reconcile channels g) ∧
    (∀ ch ∈ channels, ∀ v m, g.getNodeByName ch.monitorVolName = some v →
      g.getNodeByName "ut-monitor-mix" = some m → g.hasLink v.id m.id = false →
      ReconcileAction.createLink ch.monitorVolName "monitor_FL" "ut-monitor-mix" "playback_FL"
        ∈ reconcile channels g ∧
      ReconcileAction.createLink ch.monitorVolName "monitor_FR" "ut-monitor-mix" "playback_FR"
        ∈ reconcile channels g) ∧
    (∀ a b, g.getNodeByName "ut-stream-mix" = some a →
      g.getNodeByName "ut-stream-out" = some b → g.hasLink a.id b.id = false →
      ReconcileAction.createLink "ut-stream-mix" "monitor_FL" "ut-stream-out" "playback_FL"
        ∈ reconcile channels g ∧
      ReconcileAction.createLink "ut-stream-mix" "monitor_FR" "ut-stream-out" "playback_FR"
        ∈ reconcile channels g) ∧
    (∀ m w, g.getNodeByName "ut-monitor-mix" = some m → g.findWave3Sink = some w →
      g.hasLink m.id w.id = false →
      ReconcileAction.createLink "ut-monitor-mix" "monitor_FL" w.name "playback_FL"
        ∈ reconcile channels g ∧
      ReconcileAction.createLink "ut-monitor-mix" "monitor_FR" w.name "playback_FR"
        ∈ reconcile channels g) ∧
    (∀ a ∈ reconcile channels g, ∀ o op i ip, a = .createLink o op i ip →
      o ∈ channels.map (·.streamVolName) ∨ o ∈ channels.map (·.monitorVolName) ∨
      o = "ut-stream-mix" ∨ o = "ut-monitor-mix") ∧
    (∃ pre post, reconcile channels g = pre ++ post ∧
      (∀ a ∈ pre, a.isCreateLink = false) ∧ (∀ a ∈ post, a.isCreateSink = false)) := by
  have memSeg1 : ∀ a, a ∈ channelSinkActs channels g → a ∈ reconcile channels g := by
    intro a h
    unfold reconcile
    simp only [List.mem_append]
    tauto
  have memSeg2 : ∀ a, a ∈ mixSinkActs requiredMixes g → a ∈ reconcile channels g := by
    intro a h
    unfold reconcile
    simp only [List.mem_append]
    tauto
  have memSeg3 : ∀ a, a ∈ filterSinkActs channels g → a ∈ reconcile channels g := by
    intro a h
    unfold reconcile
    simp only [List.mem_append]
    tauto
  have memSeg5 : ∀ a, a ∈ channelLinkActs channels g → a ∈ reconcile channels g := by
    intro a h
    unfold reconcile
    simp only [List.mem_append]
    tauto
  have memSeg6 : ∀ a, a ∈ streamOutLinkActs g → a ∈ reconcile channels g := by
    intro a h
    unfold reconcile
    simp only [List.mem_append]
    tauto
  have memSeg7 : ∀ a, a ∈ wave3LinkActs g → a ∈ reconcile channels g := by
    intro a h
    unfold reconcile
    simp only [List.mem_append]
    tauto
  refine ⟨?_, ?_, ?_, ?_, ?_, ?_, ?_, ?_, ?_, ?_⟩
  · intro ch hch hmiss
    exact memSeg1 _ (channelSinkActs_mem hch hmiss)
  · intro nd hnd hmiss
    exact memSeg2 _ (mixSinkActs_mem hnd hmiss)
  · intro ch hch hmiss
    exact memSeg3 _ (filterSinkActs_mem_stream hch hmiss)
  · intro ch hch hmiss
    exact memSeg3 _ (filterSinkActs_mem_monitor hch hmiss)
  · intro ch hch v m hv hm hl
    have heq := streamVolLinkActs_eq hv hm hl
    constructor
    · exact memSeg5 _ (channelLinkActs_mem hch (Or.inl (by rw [heq]; exact List.mem_cons_self _ _)))
    · exact memSeg5 _ (channelLinkActs_mem hch (Or.inl (by
        rw [heq]; exact List.mem_cons_of_mem _ (List.mem_cons_self _ _))))
  · intro ch hch v m hv hm hl
    have heq := monitorVolLinkActs_eq hv hm hl
    constructor
    · exact memSeg5 _ (channelLinkActs_mem hch (Or.inr (by rw [heq]; exact List.mem_cons_self _ _)))
    · exact memSeg5 _ (channelLinkActs_mem hch (Or.inr (by
        rw [heq]; exact List.mem_cons_of_mem _ (List.mem_cons_self _ _))))
  · intro a b ha hb hl
    have heq : streamOutLinkActs g =
        [ReconcileAction.createLink "ut-stream-mix" "monitor_FL" "ut-stream-out" "playback_FL",
         ReconcileAction.createLink "ut-stream-mix" "monitor_FR" "ut-stream-out" "playback_FR"] := by
      simp [streamOutLinkActs, ha, hb, hl]
    constructor
    · exact memSeg6 _ (by rw [heq]; exact List.mem_cons_self _ _)
    · exact memSeg6 _ (by rw [heq]; exact List.mem_cons_of_mem _ (List.mem_cons_self _ _))
  · intro m w hm hw hl
    have heq : wave3LinkActs g =
        [ReconcileAction.createLink "ut-monitor-mix" "monitor_FL" w.name "playback_FL",
         ReconcileAction.createLink "ut-monitor-mix" "monitor_FR" w.name "playback_FR"] := by
      simp [wave3LinkActs, hm, hw, hl]
    constructor
    · exact memSeg7 _ (by rw [heq]; exact List.mem_cons_self _ _)
    · exact memSeg7 _ (by rw [heq]; exact List.mem_cons_of_mem _ (List.mem_cons_self _ _))
  · intro a ha o op i ip hao
    subst hao
    unfold reconcile at ha
    simp only [List.mem_append] at ha
    rcases ha with ((((((h | h) | h) | h) | h) | h) | h)
    · have := channelSinkActs_all_sink h
      cases this
    · have := mixSinkActs_all_sink h
      cases this
    · have := filterSinkActs_all_sink h
      cases this
    · have := wave3WarnActs_all_warn h
      cases this
    · obtain ⟨ch, hch, hmem | hmem⟩ := channelLinkActs_sound h
      · rcases streamVolLinkActs_shape hmem with h | h <;>
          (injection h with h1 h2 h3 h4; subst h1;
           exact Or.inl (List.mem_map_of_mem _ hch))
      · rcases monitorVolLinkActs_shape hmem with h | h <;>
          (injection h with h1 h2 h3 h4; subst h1;
           exact Or.inr (Or.inl (List.mem_map_of_mem _ hch)))
    · rcases streamOutLinkActs_shape h with h | h <;>
        (injection h with h1 h2 h3 h4; subst h1; simp)
    · rcases wave3LinkActs_shape h with ⟨w, _, h | h⟩ <;>
        (injection h with h1 h2 h3 h4; subst h1; simp)
  · refine ⟨channelSinkActs channels g ++ mixSinkActs requiredMixes g ++
      filterSinkActs channels g ++ wave3WarnActs g,
      channelLinkActs channels g ++ streamOutLinkActs g ++ wave3LinkActs g, ?_, ?_, ?_⟩
    · unfold reconcile
      simp [List.append_assoc]
    · intro a ha
      simp only [List.mem_append] at ha
      rcases ha with ((h | h) | h) | h
      · have := channelSinkActs_all_sink h
        cases a <;> simp_all [ReconcileAction.isCreateSink, ReconcileAction.isCreateLink]
      · have := mixSinkActs_all_sink h
        cases a <;> simp_all [ReconcileAction.isCreateSink, ReconcileAction.isCreateLink]
      · have := filterSinkActs_all_sink h
        cases a <;> simp_all [ReconcileAction.isCreateSink, ReconcileAction.isCreateLink]
      · have := wave3WarnActs_all_warn h
        subst this; rfl
    · intro a ha
      simp only [List.mem_append] at ha
      rcases ha with (h | h) | h
      · obtain ⟨ch, _, hmem | hmem⟩ := channelLinkActs_sound h
        · rcases streamVolLinkActs_shape hmem with h | h <;> (subst h; rfl)
        · rcases monitorVolLinkActs_shape hmem with h | h <;> (subst h; rfl)
      · rcases streamOutLinkActs_shape h with h | h <;> (subst h; rfl)
      · rcases wave3LinkActs_shape h with ⟨w, _, h | h⟩ <;> (subst h; rfl)

/-- Witness for C1: on the `music` channel and the empty cache, the
missing channel sink's `CreateSink` is in the output. -/
theorem c1_witness :
    (Graph.empty.getNodeByName musicCfg.nodeName).isNone = true ∧
    ReconcileAction.createSink (VirtualSinkProps.stereo musicCfg.nodeName
      "Undertone: Music Channel") ∈ reconcile [musicCfg] Graph.empty :=
  ⟨by decide,
   (c1_reconcile_repairs_amended [musicCfg] Graph.empty).1 musicCfg
     (List.mem_cons_self _ _) (by decide)⟩

/-! ## Lemmas about applying reconcile actions (for the idempotence claim) -/

/-- Every member of a list is bounded by its max-fold. -/
theorem le_foldr_max {x : Nat} {l : List Nat} (h : x ∈ l) : x ≤ l.foldr max 0 := by
  induction l with
  | nil => cases h
  | cons a t ih =>
    rcases List.mem_cons.mp h with h | h
    · subst h
      exact le_max_left _ _
    · exact le_trans (ih h) (le_max_right _ _)

/-- `freshId` exceeds every cached node id. -/
theorem node_id_lt_freshId {g : Graph} {n : NodeInfo} (h : n ∈ g.nodes) :
    n.id < g.freshId := by
  have hm : n.id ∈ (g.nodes.map (·.id)) ++ (g.links.map (·.id)) :=
    List.mem_append_left _ (List.mem_map_of_mem _ h)
  exact Nat.lt_succ_of_le (le_foldr_max hm)

/-- `freshId` exceeds every cached link id. -/
theorem link_id_lt_freshId {g : Graph} {l : LinkInfo} (h : l ∈ g.links) :
    l.id < g.freshId := by
  have hm : l.id ∈ (g.nodes.map (·.id)) ++ (g.links.map (·.id)) :=
    List.mem_append_right _ (List.mem_map_of_mem _ h)
  exact Nat.lt_succ_of_le (le_foldr_max hm)

/-- Inserting a fresh-id sink appends it to the node list. -/
theorem addNode_fresh_nodes (g : Graph) (p : VirtualSinkProps) :
    (g.addNode (mkSinkNode g p)).nodes = g.nodes ++ [mkSinkNode g p] := by
  have h2 : ∀ m ∈ g.nodes, (m.id != (mkSinkNode g p).id) = true := by
    intro m hm
    have hlt := node_id_lt_freshId hm
    simp only [mkSinkNode]
    simpa using Nat.ne_of_lt hlt
  show g.nodes.filter (fun m => m.id != (mkSinkNode g p).id) ++ [mkSinkNode g p]
      = g.nodes ++ [mkSinkNode g p]
  rw [List.filter_eq_self.mpr h2]

/-- Applying a non-`CreateSink` action leaves the node list unchanged. -/
theorem applyAction_nodes_of_not_sink (g : Graph) (a : ReconcileAction)
    (h : a.isCreateSink = false) : (applyAction g a).nodes = g.nodes := by
  cases a with
  | createSink p => simp [ReconcileAction.isCreateSink] at h
  | createLink o op i ip =>
    simp only [applyAction]
    cases hx : g.getNodeByName o with
    | none => rfl
    | some na =>
      cases hy : g.getNodeByName i with
      | none => rfl
      | some nb => rfl
  | destroyNode id => rfl
  | destroyLink id => rfl
  | warn msg => rfl

/-- Node lists agree → name lookups agree. -/
theorem getNodeByName_congr {g₁ g₂ : Graph} (h : g₁.nodes = g₂.nodes) (n : String) :
    g₁.getNodeByName n = g₂.getNodeByName n := by
  unfold Graph.getNodeByName
  rw [h]

/-- Node lists agree → device-sink discovery agrees. -/
theorem findWave3Sink_congr {g₁ g₂ : Graph} (h : g₁.nodes = g₂.nodes) :
    g₁.findWave3Sink = g₂.findWave3Sink := by
  unfold Graph.findWave3Sink
  rw [getNodeByName_congr h, h]

/-- Folding a list of pure link actions leaves the node list unchanged. -/
theorem applyActions_nodes_of_all_link (A : List ReconcileAction) (g : Graph)
    (h : ∀ a ∈ A, a.isCreateLink = true) : (applyActions g A).nodes = g.nodes := by
  induction A generalizing g with
  | nil => rfl
  | cons a rest ih =>
    have ha : a.isCreateSink = false := by
      have := h a (List.mem_cons_self a rest)
      cases a <;> simp_all [ReconcileAction.isCreateLink, ReconcileAction.isCreateSink]
    show (applyActions (applyAction g a) rest).nodes = g.nodes
    rw [ih (applyAction g a) (fun x hx => h x (List.mem_cons_of_mem a hx)),
      applyAction_nodes_of_not_sink g a ha]

/-- A name found in the cache is still found after one action. -/
theorem getNodeByName_isSome_applyAction {g : Graph} {name : String} (a : ReconcileAction)
    (h : (g.getNodeByName name).isSome = true) :
    ((applyAction g a).getNodeByName name).isSome = true := by
  by_cases hs : a.isCreateSink = true
  · cases a with
    | createSink p =>
      show ((g.addNode (mkSinkNode g p)).getNodeByName name).isSome = true
      unfold Graph.getNodeByName
      rw [show (g.addNode (mkSinkNode g p)).nodes = g.nodes ++ [mkSinkNode g p] from
        addNode_fresh_nodes g p]
      rw [List.find?_append]
      obtain ⟨v, hv⟩ := Option.isSome_iff_exists.mp h
      unfold Graph.getNodeByName at hv
      rw [hv]
      rfl
    | createLink o op i ip => simp [ReconcileAction.isCreateSink] at hs
    | destroyNode id => simp [ReconcileAction.isCreateSink] at hs
    | destroyLink id => simp [ReconcileAction.isCreateSink] at hs
    | warn msg => simp [ReconcileAction.isCreateSink] at hs
  · rw [getNodeByName_congr (applyAction_nodes_of_not_sink g a (Bool.eq_false_iff.mpr hs))]
    exact h

/-- A name found in the cache is still found after a whole action list. -/
theorem getNodeByName_isSome_applyActions (A : List ReconcileAction) (g : Graph)
    (name : String) (h : (g.getNodeByName name).isSome = true) :
    ((applyActions g A).getNodeByName name).isSome = true := by
  induction A generalizing g with
  | nil => exact h
  | cons a rest ih => exact ih (applyAction g a) (getNodeByName_isSome_applyAction a h)

/-- After applying a list containing `CreateSink p`, the name `p.name`
is in the cache. -/
theorem createSink_present_applyActions {p : VirtualSinkProps}
    (A : List ReconcileAction) (g : Graph) (hmem : ReconcileAction.createSink p ∈ A) :
    ((applyActions g A).getNodeByName p.name).isSome = true := by
  induction A generalizing g with
  | nil => cases hmem
  | cons a rest ih =>
    rcases List.mem_cons.mp hmem with h | h
    · subst h
      apply getNodeByName_isSome_applyActions rest
      show ((g.addNode (mkSinkNode g p)).getNodeByName p.name).isSome = true
      unfold Graph.getNodeByName
      rw [show (g.addNode (mkSinkNode g p)).nodes = g.nodes ++ [mkSinkNode g p] from
        addNode_fresh_nodes g p]
      rw [List.find?_append]
      cases hleft : g.nodes.find? (fun n => n.name == p.name) with
      | some v => rfl
      | none => simp [mkSinkNode, List.find?]
    · exact ih (applyAction g a) h

/-- Any segment member is a reconcile member. -/
theorem mem_reconcile_of_seg {channels : List ChannelConfig} {g : Graph}
    {a : ReconcileAction}
    (h : a ∈ channelSinkActs channels g ∨ a ∈ mixSinkActs requiredMixes g ∨
      a ∈ filterSinkActs channels g ∨ a ∈ wave3WarnActs g ∨
      a ∈ channelLinkActs channels g ∨ a ∈ streamOutLinkActs g ∨ a ∈ wave3LinkActs g) :
    a ∈ reconcile channels g := by
  unfold reconcile
  simp only [List.mem_append]
  tauto

/-- The channel-sink segment is empty when every channel sink is cached. -/
theorem channelSinkActs_nil {channels : List ChannelConfig} {g : Graph}
    (h : ∀ ch ∈ channels, (g.getNodeByName ch.nodeName).isSome = true) :
    channelSinkActs channels g = [] := by
  induction channels with
  | nil => rfl
  | cons c rest ih =>
    obtain ⟨v, hv⟩ := Option.isSome_iff_exists.mp (h c (List.mem_cons_self c rest))
    simp [channelSinkActs, hv, ih (fun ch hch => h ch (List.mem_cons_of_mem c hch))]

/-- The mix-sink segment is empty when every required mix is cached. -/
theorem mixSinkActs_nil {l : List (String × String)} {g : Graph}
    (h : ∀ nd ∈ l, (g.getNodeByName nd.1).isSome = true) :
    mixSinkActs l g = [] := by
  induction l with
  | nil => rfl
  | cons c rest ih =>
    obtain ⟨v, hv⟩ := Option.isSome_iff_exists.mp (h c (List.mem_cons_self c rest))
    simp [mixSinkActs, hv, ih (fun nd hnd => h nd (List.mem_cons_of_mem c hnd))]

/-- The filter-sink segment is empty when every filter is cached. -/
theorem filterSinkActs_nil {channels : List ChannelConfig} {g : Graph}
    (h : ∀ ch ∈ channels, (g.getNodeByName ch.streamVolName).isSome = true ∧
      (g.getNodeByName ch.monitorVolName).isSome = true) :
    filterSinkActs channels g = [] := by
  induction channels with
  | nil => rfl
  | cons c rest ih =>
    obtain ⟨v, hv⟩ := Option.isSome_iff_exists.mp (h c (List.mem_cons_self c rest)).1
    obtain ⟨w, hw⟩ := Option.isSome_iff_exists.mp (h c (List.mem_cons_self c rest)).2
    simp [filterSinkActs, hv, hw, ih (fun ch hch => h ch (List.mem_cons_of_mem c hch))]

/-- The channel-link segment is empty when each per-channel block is. -/
theorem channelLinkActs_nil {channels : List ChannelConfig} {g : Graph}
    (h : ∀ ch ∈ channels, streamVolLinkActs ch g = [] ∧ monitorVolLinkActs ch g = []) :
    channelLinkActs channels g = [] := by
  induction channels with
  | nil => rfl
  | cons c rest ih =>
    have hc := h c (List.mem_cons_self c rest)
    simp [channelLinkActs, hc.1, hc.2, ih (fun ch hch => h ch (List.mem_cons_of_mem c hch))]

/-- Channel-sink segment members name a desired, missing channel sink. -/
theorem channelSinkActs_sound {channels : List ChannelConfig} {g : Graph}
    {a : ReconcileAction} (ha : a ∈ channelSinkActs channels g) :
    ∃ ch ∈ channels,
      a = ReconcileAction.createSink (VirtualSinkProps.stereo ch.nodeName
        ("Undertone: " ++ ch.displayName ++ " Channel")) ∧
      (g.getNodeByName ch.nodeName).isNone = true := by
  induction channels with
  | nil => cases ha
  | cons c rest ih =>
    rw [channelSinkActs] at ha
    rcases List.mem_append.mp ha with h | h
    · by_cases hc : (g.getNodeByName c.nodeName).isNone = true
      · rw [if_pos hc] at h
        rcases List.mem_cons.mp h with h | h
        · exact ⟨c, List.mem_cons_self c rest, h, hc⟩
        · cases h
      · rw [if_neg hc] at h
        cases h
    · obtain ⟨ch, hch, heq, hmiss⟩ := ih h
      exact ⟨ch, List.mem_cons_of_mem c hch, heq, hmiss⟩

/-- Mix-sink segment members name a desired, missing mix node. -/
theorem mixSinkActs_sound {l : List (String × String)} {g : Graph}
    {a : ReconcileAction} (ha : a ∈ mixSinkActs l g) :
    ∃ nd ∈ l, a = ReconcileAction.createSink (VirtualSinkProps.stereo nd.1 nd.2) ∧
      (g.getNodeByName nd.1).isNone = true := by
  induction l with
  | nil => cases ha
  | cons c rest ih =>
    rw [mixSinkActs] at ha
    rcases List.mem_append.mp ha with h | h
    · by_cases hc : (g.getNodeByName c.1).isNone = true
      · rw [if_pos hc] at h
        rcases List.mem_cons.mp h with h | h
        · exact ⟨c, List.mem_cons_self c rest, h, hc⟩
        · cases h
      · rw [if_neg hc] at h
        cases h
    · obtain ⟨nd, hnd, heq, hmiss⟩ := ih h
      exact ⟨nd, List.mem_cons_of_mem c hnd, heq, hmiss⟩

/-- Filter-sink segment members name a desired, missing volume filter. -/
theorem filterSinkActs_sound {channels : List ChannelConfig} {g : Graph}
    {a : ReconcileAction} (ha : a ∈ filterSinkActs channels g) :
    ∃ ch ∈ channels,
      (a = ReconcileAction.createSink (VirtualSinkProps.stereo ch.streamVolName
          ("Undertone: " ++ ch.displayName ++ " Stream Volume")) ∧
        (g.getNodeByName ch.streamVolName).isNone = true) ∨
      (a = ReconcileAction.createSink (VirtualSinkProps.stereo ch.monitorVolName
          ("Undertone: " ++ ch.displayName ++ " Monitor Volume")) ∧
        (g.getNodeByName ch.monitorVolName).isNone = true) := by
  induction channels with
  | nil => cases ha
  | cons c rest ih =>
    rw [filterSinkActs, List.append_assoc] at ha
    rcases List.mem_append.mp ha with h | h
    · by_cases hc : (g.getNodeByName c.streamVolName).isNone = true
      · rw [if_pos hc] at h
        rcases List.mem_cons.mp h with h | h
        · exact ⟨c, List.mem_cons_self c rest, Or.inl ⟨h, hc⟩⟩
        · cases h
      · rw [if_neg hc] at h
        cases h
    · rcases List.mem_append.mp h with h | h
      · by_cases hc : (g.getNodeByName c.monitorVolName).isNone = true
        · rw [if_pos hc] at h
          rcases List.mem_cons.mp h with h | h
          · exact ⟨c, List.mem_cons_self c rest, Or.inr ⟨h, hc⟩⟩
          · cases h
        · rw [if_neg hc] at h
          cases h
      · obtain ⟨ch, hch, hcase⟩ := ih h
        exact ⟨ch, List.mem_cons_of_mem c hch, hcase⟩

/-- Every `CreateSink` the reconciler emits names a desired node that is
missing from the cache. -/
theorem reconcile_createSink_sound {channels : List ChannelConfig} {g : Graph}
    {p : VirtualSinkProps} (hp : ReconcileAction.createSink p ∈ reconcile channels g) :
    (g.getNodeByName p.name).isNone = true ∧
    (p.name ∈ channels.map (·.nodeName) ∨ p.name ∈ requiredMixes.map (·.1) ∨
     p.name ∈ channels.map (·.streamVolName) ∨ p.name ∈ channels.map (·.monitorVolName)) := by
  unfold reconcile at hp
  simp only [List.mem_append] at hp
  rcases hp with ((((((h | h) | h) | h) | h) | h) | h)
  · obtain ⟨ch, hch, heq, hmiss⟩ := channelSinkActs_sound h
    injection heq with heq
    subst heq
    exact ⟨hmiss, Or.inl (List.mem_map_of_mem _ hch)⟩
  · obtain ⟨nd, hnd, heq, hmiss⟩ := mixSinkActs_sound h
    injection heq with heq
    subst heq
    exact ⟨hmiss, Or.inr (Or.inl (List.mem_map_of_mem _ hnd))⟩
  · obtain ⟨ch, hch, ⟨heq, hmiss⟩ | ⟨heq, hmiss⟩⟩ := filterSinkActs_sound h
    · injection heq with heq
      subst heq
      exact ⟨hmiss, Or.inr (Or.inr (Or.inl (List.mem_map_of_mem _ hch)))⟩
    · injection heq with heq
      subst heq
      exact ⟨hmiss, Or.inr (Or.inr (Or.inr (List.mem_map_of_mem _ hch)))⟩
  · have := wave3WarnActs_all_warn h
    cases this
  · obtain ⟨ch, _, hmem | hmem⟩ := channelLinkActs_sound h
    · rcases streamVolLinkActs_shape hmem with h | h <;> cases h
    · rcases monitorVolLinkActs_shape hmem with h | h <;> cases h
  · rcases streamOutLinkActs_shape h with h | h <;> cases h
  · rcases wave3LinkActs_shape h with ⟨w, _, h | h⟩ <;> cases h

/-- Every desired node missing from the cache yields a `CreateSink` of
its name. -/
theorem reconcile_createSink_complete {channels : List ChannelConfig} {g : Graph}
    {name : String}
    (hname : name ∈ channels.map (·.nodeName) ∨ name ∈ requiredMixes.map (·.1) ∨
      name ∈ channels.map (·.streamVolName) ∨ name ∈ channels.map (·.monitorVolName))
    (hmiss : (g.getNodeByName name).isNone = true) :
    ∃ p, ReconcileAction.createSink p ∈ reconcile channels g ∧ p.name = name := by
  rcases hname with h | h | h | h
  · obtain ⟨ch, hch, heq⟩ := List.mem_map.mp h
    subst heq
    exact ⟨_, mem_reconcile_of_seg (Or.inl (channelSinkActs_mem hch hmiss)), rfl⟩
  · obtain ⟨nd, hnd, heq⟩ := List.mem_map.mp h
    subst heq
    exact ⟨_, mem_reconcile_of_seg (Or.inr (Or.inl (mixSinkActs_mem hnd hmiss))), rfl⟩
  · obtain ⟨ch, hch, heq⟩ := List.mem_map.mp h
    subst heq
    exact ⟨_, mem_reconcile_of_seg (Or.inr (Or.inr (Or.inl
      (filterSinkActs_mem_stream hch hmiss)))), rfl⟩
  · obtain ⟨ch, hch, heq⟩ := List.mem_map.mp h
    subst heq
    exact ⟨_, mem_reconcile_of_seg (Or.inr (Or.inr (Or.inl
      (filterSinkActs_mem_monitor hch hmiss)))), rfl⟩

/-- Cached links survive any applied action. -/
theorem hasLink_applyAction_mono {g : Graph} {x y : Nat} (a : ReconcileAction)
    (h : g.hasLink x y = true) : (applyAction g a).hasLink x y = true := by
  cases a with
  | createSink p => exact h
  | createLink o op i ip =>
    simp only [applyAction]
    cases hx : g.getNodeByName o with
    | none => exact h
    | some na =>
      cases hy : g.getNodeByName i with
      | none => exact h
      | some nb =>
        unfold Graph.hasLink at h
        simp only [List.any_eq_true] at h
        obtain ⟨l, hl, hpred⟩ := h
        show (g.addLink _).hasLink x y = true
        simp only [Graph.hasLink, Graph.addLink, List.any_append, Bool.or_eq_true,
          List.any_eq_true]
        refine Or.inl ⟨l, List.mem_filter.mpr ⟨hl, ?_⟩, hpred⟩
        simpa using Nat.ne_of_lt (link_id_lt_freshId hl)
  | destroyNode id => exact h
  | destroyLink id => exact h
  | warn msg => exact h

/-- Cached links survive a whole applied action list. -/
theorem hasLink_applyActions_mono (A : List ReconcileAction) {g : Graph} {x y : Nat}
    (h : g.hasLink x y = true) : (applyActions g A).hasLink x y = true := by
  induction A generalizing g with
  | nil => exact h
  | cons a rest ih => exact ih (hasLink_applyAction_mono a h)

/-- Applying a pure-link action list containing `CreateLink o _ i _`
installs a cached link between the nodes the cache resolves `o` and `i`
to. -/
theorem hasLink_after_apply {A : List ReconcileAction} {g : Graph}
    {o op i ip : String} {na nb : NodeInfo}
    (hall : ∀ x ∈ A, x.isCreateLink = true)
    (hmem : ReconcileAction.createLink o op i ip ∈ A)
    (ho : g.getNodeByName o = some na) (hi : g.getNodeByName i = some nb) :
    (applyActions g A).hasLink na.id nb.id = true := by
  induction A generalizing g with
  | nil => cases hmem
  | cons x rest ih =>
    have hxsink : x.isCreateSink = false := by
      have := hall x (List.mem_cons_self x rest)
      cases x <;> simp_all [ReconcileAction.isCreateLink, ReconcileAction.isCreateSink]
    rcases List.mem_cons.mp hmem with hx | hx
    · subst hx
      have hstep : (applyAction g (.createLink o op i ip)).hasLink na.id nb.id = true := by
        simp only [applyAction, ho, hi]
        unfold Graph.hasLink Graph.addLink
        simp
      exact hasLink_applyActions_mono rest hstep
    · have hnodes := applyAction_nodes_of_not_sink g x hxsink
      exact ih (fun y hy => hall y (List.mem_cons_of_mem x hy)) hx
        (by rw [getNodeByName_congr hnodes]; exact ho)
        (by rw [getNodeByName_congr hnodes]; exact hi)

/-- With distinct node names, looking a cached node up by its own name
finds it. -/
theorem find?_name_of_nodup {l : List NodeInfo}
    (hnd : (l.map (·.name)).Nodup) {w : NodeInfo} (hw : w ∈ l) :
    l.find? (fun n => n.name == w.name) = some w := by
  induction l with
  | nil => cases hw
  | cons a t ih =>
    rw [List.map_cons, List.nodup_cons] at hnd
    rcases List.mem_cons.mp hw with h | h
    · subst h
      simp [List.find?]
    · have hne : (a.name == w.name) = false := by
        simp only [beq_eq_false_iff_ne, ne_eq]
        intro heq
        exact hnd.1 (heq ▸ List.mem_map_of_mem _ h)
      rw [List.find?_cons_of_neg _ (by simp [hne])]
      exact ih hnd.2 h

/-- The discovered device sink is a cached node. -/
theorem findWave3Sink_mem {g : Graph} {w : NodeInfo} (h : g.findWave3Sink = some w) :
    w ∈ g.nodes := by
  unfold Graph.findWave3Sink at h
  cases hn : g.getNodeByName "wave3-sink" with
  | some n =>
    rw [hn] at h
    injection h with h
    subst h
    exact List.mem_of_find?_eq_some hn
  | none =>
    rw [hn] at h
    exact List.mem_of_find?_eq_some h

/-- Unpacking `allDesiredPresent`. -/
theorem allDesiredPresent_spec {channels : List ChannelConfig} {g : Graph}
    (h : allDesiredPresent channels g = true) :
    (∀ ch ∈ channels, (g.getNodeByName ch.nodeName).isSome = true ∧
      (g.getNodeByName ch.streamVolName).isSome = true ∧
      (g.getNodeByName ch.monitorVolName).isSome = true) ∧
    (g.getNodeByName "ut-stream-mix").isSome = true ∧
    (g.getNodeByName "ut-stream-out").isSome = true ∧
    (g.getNodeByName "ut-monitor-mix").isSome = true := by
  unfold allDesiredPresent at h
  simp only [Bool.and_eq_true, List.all_eq_true] at h
  obtain ⟨⟨⟨hl, h1⟩, h2⟩, h3⟩ := h
  refine ⟨?_, h1, h2, h3⟩
  intro ch hch
  have hc := hl ch hch
  simp only [Bool.and_eq_true] at hc
  exact ⟨hc.1.1, hc.1.2, hc.2⟩

/-- With all desired nodes present and the device sink cached, the
reconciler's output consists of the three link segments alone. -/
theorem reconcile_eq_links_of_present {channels : List ChannelConfig} {g : Graph}
    (hp : allDesiredPresent channels g = true) (hw : (g.findWave3Sink).isSome = true) :
    reconcile channels g =
      channelLinkActs channels g ++ streamOutLinkActs g ++ wave3LinkActs g := by
  obtain ⟨hch, hm1, hm2, hm3⟩ := allDesiredPresent_spec hp
  have e1 : channelSinkActs channels g = [] := channelSinkActs_nil (fun ch h => (hch ch h).1)
  have e2 : mixSinkActs requiredMixes g = [] := by
    apply mixSinkActs_nil
    intro nd hnd
    simp only [requiredMixes, List.mem_cons, List.not_mem_nil, or_false] at hnd
    rcases hnd with h | h | h <;> subst h <;> assumption
  have e3 : filterSinkActs channels g = [] :=
    filterSinkActs_nil (fun ch h => ⟨(hch ch h).2.1, (hch ch h).2.2⟩)
  have e4 : wave3WarnActs g = [] := by
    obtain ⟨w, hw2⟩ := Option.isSome_iff_exists.mp hw
    simp [wave3WarnActs, hw2]
  unfold reconcile
  rw [e1, e2, e3, e4]
  simp

/-- With all desired nodes present and the device sink cached, every
emitted action is a `CreateLink`. -/
theorem reconcile_all_link_of_present {channels : List ChannelConfig} {g : Graph}
    (hp : allDesiredPresent channels g = true) (hw : (g.findWave3Sink).isSome = true) :
    ∀ a ∈ reconcile channels g, a.isCreateLink = true := by
  intro a ha
  rw [reconcile_eq_links_of_present hp hw] at ha
  simp only [List.mem_append] at ha
  rcases ha with (h | h) | h
  · obtain ⟨ch, _, hmem | hmem⟩ := channelLinkActs_sound h
    · rcases streamVolLinkActs_shape hmem with h | h <;> (subst h; rfl)
    · rcases monitorVolLinkActs_shape hmem with h | h <;> (subst h; rfl)
  · rcases streamOutLinkActs_shape h with h | h <;> (subst h; rfl)
  · rcases wave3LinkActs_shape h with ⟨w, _, h | h⟩ <;> (subst h; rfl)

/-- Claim C8, counterexample: one round of reconciliation is not
enough.  With no desired channels and a cache holding only the Wave:3
sink, the first round creates the three mix nodes; applying those
actions and reconciling again emits the stream-mix → stream-out and
monitor-mix → device link actions (their endpoints only now exist), so
`reconcile(D, G·A)` is not the empty list. -/
theorem c8_one_round_not_empty_counterexample :
    reconcile [] wave3OnlyGraph ≠ [] ∧
    reconcile [] (applyActions wave3OnlyGraph (reconcile [] wave3OnlyGraph)) ≠ [] := by
  exact ⟨by decide, by decide⟩

/-- Claim C8, amended: after applying one round of actions, a second
round never emits a `CreateSink` (every desired node now exists); and
when every desired node was already cached (with distinct node names)
and the target sink is present, one round of applied actions makes the
next reconcile return the empty list — on such a healthy graph
reconciliation is idempotent. -/
theorem c8_reconcile_two_round_amended (channels : List ChannelConfig) (g : Graph) :
    (∀ p, ReconcileAction.createSink p ∈
        reconcile channels (applyActions g (reconcile channels g)) → False) ∧
    ((g.nodes.map (·.name)).Nodup →
      allDesiredPresent channels g = true →
      (g.findWave3Sink).isSome = true →
      reconcile channels (applyActions g (reconcile channels g)) = []) := by
  constructor
  · intro p hp
    have hsound := reconcile_createSink_sound hp
    by_cases hg : (g.getNodeByName p.name).isSome = true
    · have hs1 := getNodeByName_isSome_applyActions (reconcile channels g) g p.name hg
      rw [Option.isNone_iff_eq_none.mp hsound.1] at hs1
      cases hs1
    · have hmiss : (g.getNodeByName p.name).isNone = true := by
        cases ho : g.getNodeByName p.name with
        | none => rfl
        | some v => rw [ho] at hg; simp at hg
      obtain ⟨q, hq, hqname⟩ := reconcile_createSink_complete hsound.2 hmiss
      have hs1 := createSink_present_applyActions (reconcile channels g) g hq
      rw [hqname, Option.isNone_iff_eq_none.mp hsound.1] at hs1
      cases hs1
  · intro hnd hp hw
    have hall : ∀ a ∈ reconcile channels g, a.isCreateLink = true :=
      reconcile_all_link_of_present hp hw
    have hnodes : (applyActions g (reconcile channels g)).nodes = g.nodes :=
      applyActions_nodes_of_all_link _ g hall
    have hlookup : ∀ n, (applyActions g (reconcile channels g)).getNodeByName n
        = g.getNodeByName n := getNodeByName_congr hnodes
    have hwave : (applyActions g (reconcile channels g)).findWave3Sink = g.findWave3Sink :=
      findWave3Sink_congr hnodes
    obtain ⟨hch, hm1, hm2, hm3⟩ := allDesiredPresent_spec hp
    have hp1 : allDesiredPresent channels (applyActions g (reconcile channels g)) = true := by
      have heq : allDesiredPresent channels (applyActions g (reconcile channels g))
          = allDesiredPresent channels g := by
        unfold allDesiredPresent
        simp only [hlookup]
      rw [heq]
      exact hp
    have hw1 : ((applyActions g (reconcile channels g)).findWave3Sink).isSome = true := by
      rw [hwave]
      exact hw
    obtain ⟨sm, hsm⟩ := Option.isSome_iff_exists.mp hm1
    obtain ⟨so, hso⟩ := Option.isSome_iff_exists.mp hm2
    obtain ⟨mm, hmm⟩ := Option.isSome_iff_exists.mp hm3
    obtain ⟨w, hwv⟩ := Option.isSome_iff_exists.mp hw
    have hstream : ∀ ch ∈ channels,
        streamVolLinkActs ch (applyActions g (reconcile channels g)) = [] := by
      intro ch hchm
      obtain ⟨v, hv⟩ := Option.isSome_iff_exists.mp (hch ch hchm).2.1
      refine streamVolLinkActs_nil (v := v) (m := sm)
        (by rw [hlookup]; exact hv) (by rw [hlookup]; exact hsm) ?_
      by_cases hl : g.hasLink v.id sm.id = true
      · exact hasLink_applyActions_mono _ hl
      · have hl2 : g.hasLink v.id sm.id = false := Bool.eq_false_iff.mpr hl
        have heq := streamVolLinkActs_eq hv hsm hl2
        have hmemA : ReconcileAction.createLink ch.streamVolName "monitor_FL"
            "ut-stream-mix" "playback_FL" ∈ reconcile channels g :=
          mem_reconcile_of_seg (Or.inr (Or.inr (Or.inr (Or.inr (Or.inl
            (channelLinkActs_mem hchm (Or.inl
              (by rw [heq]; exact List.mem_cons_self _ _))))))))
        exact hasLink_after_apply hall hmemA hv hsm
    have hmonitor : ∀ ch ∈ channels,
        monitorVolLinkActs ch (applyActions g (reconcile channels g)) = [] := by
      intro ch hchm
      obtain ⟨v, hv⟩ := Option.isSome_iff_exists.mp (hch ch hchm).2.2
      refine monitorVolLinkActs_nil (v := v) (m := mm)
        (by rw [hlookup]; exact hv) (by rw [hlookup]; exact hmm) ?_
      by_cases hl : g.hasLink v.id mm.id = true
      · exact hasLink_applyActions_mono _ hl
      · have hl2 : g.hasLink v.id mm.id = false := Bool.eq_false_iff.mpr hl
        have heq := monitorVolLinkActs_eq hv hmm hl2
        have hmemA : ReconcileAction.createLink ch.monitorVolName "monitor_FL"
            "ut-monitor-mix" "playback_FL" ∈ reconcile channels g :=
          mem_reconcile_of_seg (Or.inr (Or.inr (Or.inr (Or.inr (Or.inl
            (channelLinkActs_mem hchm (Or.inr
              (by rw [heq]; exact List.mem_cons_self _ _))))))))
        exact hasLink_after_apply hall hmemA hv hmm
    have hout : streamOutLinkActs (applyActions g (reconcile channels g)) = [] := by
      have hsm1 : (applyActions g (reconcile channels g)).getNodeByName "ut-stream-mix"
          = some sm := by rw [hlookup]; exact hsm
      have hso1 : (applyActions g (reconcile channels g)).getNodeByName "ut-stream-out"
          = some so := by rw [hlookup]; exact hso
      have hlk : (applyActions g (reconcile channels g)).hasLink sm.id so.id = true := by
        by_cases hl : g.hasLink sm.id so.id = true
        · exact hasLink_applyActions_mono _ hl
        · have hl2 : g.hasLink sm.id so.id = false := Bool.eq_false_iff.mpr hl
          have hmemA : ReconcileAction.createLink "ut-stream-mix" "monitor_FL"
              "ut-stream-out" "playback_FL" ∈ reconcile channels g := by
            refine mem_reconcile_of_seg (Or.inr (Or.inr (Or.inr (Or.inr (Or.inr (Or.inl ?_))))))
            have heq : streamOutLinkActs g =
                [ReconcileAction.createLink "ut-stream-mix" "monitor_FL" "ut-stream-out" "playback_FL",
                 ReconcileAction.createLink "ut-stream-mix" "monitor_FR" "ut-stream-out" "playback_FR"] := by
              simp [streamOutLinkActs, hsm, hso, hl2]
            rw [heq]
            exact List.mem_cons_self _ _
          exact hasLink_after_apply hall hmemA hsm hso
      simp [streamOutLinkActs, hsm1, hso1, hlk]
    have hwlinks : wave3LinkActs (applyActions g (reconcile channels g)) = [] := by
      have hmm1 : (applyActions g (reconcile channels g)).getNodeByName "ut-monitor-mix"
          = some mm := by rw [hlookup]; exact hmm
      have hwv1 : (applyActions g (reconcile channels g)).findWave3Sink = some w := by
        rw [hwave]; exact hwv
      have hwname : g.getNodeByName w.name = some w :=
        find?_name_of_nodup hnd (findWave3Sink_mem hwv)
      have hlk : (applyActions g (reconcile channels g)).hasLink mm.id w.id = true := by
        by_cases hl : g.hasLink mm.id w.id = true
        · exact hasLink_applyActions_mono _ hl
        · have hl2 : g.hasLink mm.id w.id = false := Bool.eq_false_iff.mpr hl
          have hmemA : ReconcileAction.createLink "ut-monitor-mix" "monitor_FL"
              w.name "playback_FL" ∈ reconcile channels g := by
            refine mem_reconcile_of_seg (Or.inr (Or.inr (Or.inr (Or.inr (Or.inr (Or.inr ?_))))))
            have heq : wave3LinkActs g =
                [ReconcileAction.createLink "ut-monitor-mix" "monitor_FL" w.name "playback_FL",
                 ReconcileAction.createLink "ut-monitor-mix" "monitor_FR" w.name "playback_FR"] := by
              simp [wave3LinkActs, hmm, hwv, hl2]
            rw [heq]
            exact List.mem_cons_self _ _
          exact hasLink_after_apply hall hmemA hmm hwname
      simp [wave3LinkActs, hmm1, hwv1, hlk]
    rw [reconcile_eq_links_of_present hp1 hw1,
      channelLinkActs_nil (fun ch h => ⟨hstream ch h, hmonitor ch h⟩), hout, hwlinks]
    rfl

/-- Witness for C8: the healthy single-channel cache (all desired nodes
and the device sink present, distinct names): one applied round makes
the next reconcile empty. -/
theorem c8_witness :
    (musicNodesGraph.nodes.map (·.name)).Nodup ∧
    allDesiredPresent [musicCfg] musicNodesGraph = true ∧
    (musicNodesGraph.findWave3Sink).isSome = true ∧
    reconcile [musicCfg]
      (applyActions musicNodesGraph (reconcile [musicCfg] musicNodesGraph)) = [] :=
  ⟨by decide, by decide, by decide,
   (c8_reconcile_two_round_amended [musicCfg] musicNodesGraph).2
     (by decide) (by decide) (by decide)⟩

end Undertone
